import Mathlib

/-!
Shallow embedding of the exam-proctoring violation/evidence engine
(src/components/quiz/ProctorWrapper.tsx together with src/lib/proctoring.ts and
src/lib/quiz-types.ts).

Modelling conventions.
* The engine is a single cooperative timeline: every monitor callback of the
  source (visibility change, window blur, screen-track ended, screen-share
  countdown tick, audio sample, face-detection cycle, one-second session tick,
  confirmed manual submit, recorder completion) is one event of an event
  inductive, carrying its wall-clock time and every environment-dependent
  input (capture results, audio level, face observation).  The asynchronous
  snapshot captures inside addViolation are modelled as completing within the
  handler (the source awaits them before appending), so a handler is one
  atomic state transition.
* Machine real numbers (audio levels, head-pose angles, cosine similarity)
  are modelled as rationals; the trigonometric and square-root computations
  of getHeadYaw / getHeadPitch / cosineSimilarity are environment inputs of
  the face-cycle event, since their values are transcendental functions of
  the video frame.
* uid() produces random identifier strings in the source; the model draws
  identifiers from a monotone counter, preserving freshness.
* Wall-clock times are naturals (milliseconds).  Valid traces have
  nondecreasing times and times at least 10000 (the wall clock of any real
  session is far past 1970-01-01T00:00:10Z); the cooldown lookup
  (cooldown[type] ?? 0) + 10_000 > now of the source makes this the exact
  faithfulness boundary for a fresh kind.
-/

/-- Violation kinds, the closed enum of src/lib/quiz-types.ts. -/
inductive ViolationType
  | TAB_SWITCH | WINDOW_BLUR | NO_FACE | MULTIPLE_FACES
  | IDENTITY_MISMATCH | FULLSCREEN_EXIT | COPY_ATTEMPT
  | DEVTOOLS_OPEN | CONTEXT_MENU | SCREEN_SHARE_STOPPED
  | NOISE_DETECTED | AUDIO_DETECTED | MULTIPLE_MONITORS
  | KEYBOARD_SHORTCUT | GAZE_AWAY
  deriving DecidableEq, Repr

/-- Severity of a violation (quiz-types.ts). -/
inductive Severity | warn | error
  deriving DecidableEq, Repr

/-- The free-text detail field of a violation.  The source formats a string
with toFixed; the model keeps the underlying data (machine-readable), which
is what the claims quantify over. -/
inductive VDetail
  | text (s : String)
  | levelBaseline (level baseline : ℚ)
  | anglesYawPitch (yaw pitch : ℚ)
  | similarityPct (sim : ℚ)
  deriving DecidableEq, Repr

/-- A violation record (quiz-types.ts Violation). -/
structure Violation where
  id : Nat
  type : ViolationType
  label : String
  severity : Severity
  timestamp : Nat
  webcamShot : Option String
  screenShot : Option String
  audioUrl : Option String
  awayMs : Option Nat
  detail : Option VDetail
  deriving DecidableEq, Repr

/-- Source kind of a capture-log entry. -/
inductive CaptureKind | webcam | screen
  deriving DecidableEq, Repr

/-- Trigger kind of a capture-log entry. -/
inductive CaptureTrigger | periodic | violation | fullscreen_exit
  deriving DecidableEq, Repr

/-- A capture-log entry (quiz-types.ts CaptureLog). -/
structure CaptureLog where
  id : Nat
  timestamp : Nat
  kind : CaptureKind
  dataUrl : String
  trigger : CaptureTrigger
  deriving DecidableEq, Repr

/-- An audio evidence clip (quiz-types.ts AudioClip). -/
structure AudioClip where
  timestamp : Nat
  dataUrl : String
  deriving DecidableEq, Repr

/-- Per-kind label/severity configuration (quiz-types.ts VIOLATION_CONFIG). -/
def VIOLATION_CONFIG : ViolationType → String × Severity
  | .TAB_SWITCH           => ("Left the Exam Window", .error)
  | .WINDOW_BLUR          => ("Window Lost Focus", .warn)
  | .NO_FACE              => ("Face Not Visible", .error)
  | .MULTIPLE_FACES       => ("Another Person Detected", .error)
  | .IDENTITY_MISMATCH    => ("Identity Could Not Be Verified", .error)
  | .FULLSCREEN_EXIT      => ("Left Fullscreen Mode", .error)
  | .COPY_ATTEMPT         => ("Copy/Paste Not Allowed", .warn)
  | .DEVTOOLS_OPEN        => ("Developer Tools Detected", .error)
  | .CONTEXT_MENU         => ("Right-Click Not Allowed", .warn)
  | .SCREEN_SHARE_STOPPED => ("Screen Sharing Ended", .error)
  | .NOISE_DETECTED       => ("Background Noise Detected", .warn)
  | .AUDIO_DETECTED       => ("Voice/Speech Detected", .error)
  | .MULTIPLE_MONITORS    => ("Multiple Displays Detected", .error)
  | .KEYBOARD_SHORTCUT    => ("Blocked Shortcut Used", .warn)
  | .GAZE_AWAY            => ("Looking Away from Screen", .error)

/-- The options bag of addViolation (ProctorWrapper.tsx line 83). -/
structure AVOpts where
  captureScreen : Bool := false
  awayMs : Option Nat := none
  detail : Option VDetail := none
  skipCooldown : Bool := false
  audioUrl : Option String := none
  deriving DecidableEq, Repr

/-- The final payload handed to onTimeUp / onManualSubmit (doFinish). -/
structure Payload where
  violations : List Violation
  captureLogs : List CaptureLog
  audioClips : List AudioClip
  timeSpent : Int
  deriving DecidableEq, Repr

/-- Which ended-listener is armed on the tracked screen source: the original
onScreenEnded (lines 199-228) or the listener installed by
handleReshareScreen (lines 276-281). -/
inductive ScreenHandler | original | reshared
  deriving DecidableEq, Repr

/-- Live face/identity status exposed to the consumer. -/
inductive FaceStatus | ok | noFace | multiple | mismatch
  deriving DecidableEq, Repr

/-- The mutable state of ProctorWrapper: the React state and refs that the
monitors and the finalizer read and write. -/
structure St where
  /-- configured session duration (durationSeconds prop); never written. -/
  duration : Int
  /-- latest wall-clock instant observed (for trace monotonicity). -/
  time : Nat
  violations : List Violation
  captureLogs : List CaptureLog
  audioClips : List AudioClip
  /-- cooldownRef: per-kind last-fired wall-clock time. -/
  cooldown : ViolationType → Option Nat
  /-- fresh-identifier counter standing in for uid(). -/
  nextId : Nat
  /-- timeLeft React state (seconds). -/
  timeLeft : Int
  /-- document.hidden. -/
  hidden : Bool
  /-- tabHiddenAtRef. -/
  tabHiddenAt : Option Nat
  /-- submittedRef: the idempotency guard of doFinish. -/
  submitted : Bool
  /-- payloads handed to the external submission callback. -/
  delivered : List Payload
  /-- number of times stopAll released the held media tracks. -/
  releaseCount : Nat
  /-- whether the tracked screen track readyState is live. -/
  screenLive : Bool
  screenHandler : ScreenHandler
  /-- screenStopCountRef. -/
  screenStopCount : Nat
  /-- screenCountdownRef with its remaining seconds, none when cleared. -/
  countdownActive : Option Nat
  faceStatus : FaceStatus
  missCount : Nat
  multiCount : Nat
  mismatchCount : Nat
  /-- gazeAwayStartRef. -/
  gazeAwayStart : Option Nat
  /-- audio monitor closure state (calSamples, baseline, calibrated,
  voiceFrames, saving, lastNoiseFlagMs). -/
  calSamples : List ℚ
  baseline : ℚ
  calibrated : Bool
  voiceFrames : Nat
  saving : Bool
  lastNoiseFlag : Option Nat
  /-- identifier of the NOISE_DETECTED violation awaiting its clip. -/
  pendingNoiseId : Option Nat

/-- The cooldown gate of addViolation (line 86): true when the call must
be suppressed. -/
def avGate (s : St) (now : Nat) (k : ViolationType) (o : AVOpts) : Prop :=
  o.skipCooldown = false ∧ k ≠ .TAB_SWITCH ∧ (s.cooldown k).getD 0 + 10000 > now

instance (s : St) (now : Nat) (k : ViolationType) (o : AVOpts) :
    Decidable (avGate s now k o) := by
  unfold avGate; infer_instance

/-- The Violation record a firing addViolation call constructs
(lines 99-103). -/
def avRecord (s : St) (now : Nat) (k : ViolationType) (o : AVOpts)
    (capW capS : Option String) : Violation :=
  { id := s.nextId, type := k, label := (VIOLATION_CONFIG k).1,
    severity := (VIOLATION_CONFIG k).2, timestamp := now,
    webcamShot := capW, screenShot := if o.captureScreen then capS else none,
    audioUrl := o.audioUrl, awayMs := o.awayMs, detail := o.detail }

/-- The capture-log entries of a firing addViolation call (lines 105-106). -/
def avLogs (s : St) (now : Nat) (o : AVOpts) (capW capS : Option String) :
    List CaptureLog :=
  (match capW with
   | some u => [{ id := s.nextId + 1, timestamp := now, kind := .webcam,
                  dataUrl := u, trigger := .violation }]
   | none => []) ++
  (match (if o.captureScreen then capS else none : Option String) with
   | some u => [{ id := s.nextId + 2, timestamp := now, kind := .screen,
                  dataUrl := u, trigger := .violation }]
   | none => [])

/-- addViolation (ProctorWrapper.tsx lines 81-108): the single
report-violation entry point.  Returns the updated state and the appended
record identifier (none when the cooldown gate suppressed the call).
capW / capS are the results of the two snapStream captures (none = capture
failed or, for capS, not requested). -/
def addViolation (s : St) (now : Nat) (k : ViolationType) (o : AVOpts)
    (capW capS : Option String) : St × Option Nat :=
  if avGate s now k o then
    (s, none)
  else
    ({ s with
        cooldown :=
          if o.skipCooldown then s.cooldown
          else fun t => if t = k then some now else s.cooldown t,
        nextId := s.nextId + 3,
        violations := s.violations ++ [avRecord s now k o capW capS],
        captureLogs := s.captureLogs ++ avLogs s now o capW capS },
     some s.nextId)

/-- doFinish (lines 558-571): the single idempotent finalizer.  Clears the
session timer and the reshare countdown, releases all media tracks
(stopAll), and delivers the frozen payload once. -/
def doFinish (s : St) : St :=
  if s.submitted then s
  else
    { s with submitted := true, countdownActive := none, screenLive := false,
             releaseCount := s.releaseCount + 1,
             delivered := s.delivered ++
               [{ violations := s.violations, captureLogs := s.captureLogs,
                  audioClips := s.audioClips,
                  timeSpent := s.duration - s.timeLeft }] }

/-- The visibility-restored patch (lines 156-161): set awayMs on the most
recent TAB_SWITCH record (the source walks the reversed copy with find). -/
def patchLastTabSwitch (away : Nat) : List Violation → List Violation
  | [] => []
  | v :: rest =>
    if rest.any (fun w => w.type = .TAB_SWITCH) then
      v :: patchLastTabSwitch away rest
    else if v.type = .TAB_SWITCH then { v with awayMs := some away } :: rest
    else v :: rest

/-- Append a capture-log entry (logCapture, lines 76-79). -/
def logCapture (s : St) (now : Nat) (kind : CaptureKind) (url : String)
    (trigger : CaptureTrigger) : St :=
  { s with captureLogs := s.captureLogs ++
             [{ id := s.nextId, timestamp := now, kind := kind,
                dataUrl := url, trigger := trigger }],
           nextId := s.nextId + 1 }

/-- A face observation, the outcome of one detectFaces call on a video
frame.  detectFail is a null result (video not ready or detector error).
For a single face, pose carries the (yaw, pitch) angles that getHeadYaw /
getHeadPitch derive from the facial transformation matrix (none when the
matrix is absent), and sim the cosineSimilarity of the landmark embedding
against the enrollment reference (none when extraction fails or no
reference embedding exists). -/
inductive FaceObs
  | detectFail
  | faces0
  | facesMany
  | face1 (pose : Option (ℚ × ℚ)) (sim : Option ℚ)
  deriving DecidableEq, Repr

/-- The display surface of a re-shared screen track, from
getSettings().displaySurface; none when the browser does not report one. -/
inductive DSurface | monitor | window | browser
  deriving DecidableEq, Repr

/-- One face-detection cycle (the loop body, lines 469-532): hysteresis
counters for no-face / multiple-faces, the gaze-away timer, and the
identity-mismatch counter. -/
def faceCycle (s : St) (now : Nat) (obs : FaceObs) (capW capS : Option String) : St :=
  match obs with
  | .detectFail => s
  | .faces0 =>
    let s1 := { s with multiCount := 0, mismatchCount := 0,
                       missCount := s.missCount + 1, gazeAwayStart := none }
    if s1.missCount ≥ 3 then
      let s2 := { s1 with faceStatus := .noFace }
      let s3 := (addViolation s2 now .NO_FACE {} capW capS).1
      { s3 with missCount := 0 }
    else s1
  | .facesMany =>
    let s1 := { s with missCount := 0, mismatchCount := 0,
                       multiCount := s.multiCount + 1, gazeAwayStart := none }
    if s1.multiCount ≥ 2 then
      let s2 := { s1 with faceStatus := .multiple }
      let s3 := (addViolation s2 now .MULTIPLE_FACES {} capW capS).1
      { s3 with multiCount := 0 }
    else s1
  | .face1 pose sim =>
    let s1 := { s with missCount := 0, multiCount := 0 }
    let s2 :=
      match pose with
      | some (yaw, pitch) =>
        if 25 < |yaw| ∨ 30 < |pitch| then
          let start := s1.gazeAwayStart.getD now
          let s2a := { s1 with gazeAwayStart := some start }
          if now - start ≥ 1500 then
            let s2b := { s2a with faceStatus := .mismatch }
            let s2c := (addViolation s2b now .GAZE_AWAY
              { detail := some (.anglesYawPitch yaw pitch) } capW capS).1
            { s2c with gazeAwayStart := some now }
          else s2a
        else { s1 with gazeAwayStart := none }
      | none => s1
    match sim with
    | some v =>
      if v < mkRat 72 100 then
        let s3 := { s2 with mismatchCount := s2.mismatchCount + 1 }
        if s3.mismatchCount ≥ 3 then
          let s4 := { s3 with faceStatus := .mismatch }
          let s5 := (addViolation s4 now .IDENTITY_MISMATCH
            { detail := some (.similarityPct v), skipCooldown := true } capW capS).1
          { s5 with mismatchCount := 0 }
        else s3
      else
        let s3 := { s2 with mismatchCount := 0 }
        if s3.gazeAwayStart = none then { s3 with faceStatus := .ok } else s3
    | none =>
      let s3 := { s2 with mismatchCount := 0 }
      if s3.gazeAwayStart = none then { s3 with faceStatus := .ok } else s3

/-- The 80th-percentile baseline of the calibration window (check, lines
399-402: sort ascending, index floor(length * 0.80)). -/
def insertLe (a : ℚ) : List ℚ → List ℚ
  | [] => [a]
  | b :: l => if a ≤ b then a :: b :: l else b :: insertLe a l

/-- Ascending sort of the calibration window ([...calSamples].sort((a, b) =>
a - b), line 400); the sorted value list is algorithm-independent. -/
def sortLe : List ℚ → List ℚ
  | [] => []
  | a :: l => insertLe a (sortLe l)

def percentile80 (l : List ℚ) : ℚ :=
  (sortLe l).getD (l.length * 4 / 5) 0

unseal Rat.add

/-- The noise cooldown gate nowMs - lastNoiseFlagMs > NOISE_COOLDOWN_MS
(line 413); lastNoiseFlagMs starts at -Infinity, modelled as none. -/
def noiseGate (lastFlag : Option Nat) (now : Nat) : Bool :=
  match lastFlag with
  | none => true
  | some t => decide (t + 12000 < now)

/-- One audio-monitor sample (check, lines 387-435): calibration for the
first 120 samples, then the voice-frame counter and the NOISE_DETECTED
path with its 12 s noise cooldown and recording start.  avg is the
voice-band energy average of this sample; capW the webcam snapshot result
attached to a fired noise violation. -/
def audioCheck (s : St) (now : Nat) (avg : ℚ) (capW : Option String) : St :=
  if s.calibrated = false then
    let cal := s.calSamples ++ [avg]
    if cal.length ≥ 120 then
      { s with calSamples := cal, baseline := percentile80 cal, calibrated := true }
    else
      { s with calSamples := cal }
  else
    if s.baseline + 12 < avg then
      let vf := s.voiceFrames + 1
      if vf ≥ 5 ∧ s.saving = false then
        if noiseGate s.lastNoiseFlag now then
          let v : Violation :=
            { id := s.nextId, type := .NOISE_DETECTED,
              label := (VIOLATION_CONFIG .NOISE_DETECTED).1,
              severity := (VIOLATION_CONFIG .NOISE_DETECTED).2,
              timestamp := now, webcamShot := capW, screenShot := none,
              audioUrl := none, awayMs := none,
              detail := some (.levelBaseline avg s.baseline) }
          let wLogs : List CaptureLog :=
            match capW with
            | some u => [{ id := s.nextId + 1, timestamp := now, kind := .webcam,
                           dataUrl := u, trigger := .violation }]
            | none => []
          { s with voiceFrames := 0, lastNoiseFlag := some now, saving := true,
                   pendingNoiseId := some s.nextId, nextId := s.nextId + 2,
                   violations := s.violations ++ [v],
                   captureLogs := s.captureLogs ++ wLogs }
        else { s with voiceFrames := 0 }
      else { s with voiceFrames := vf }
    else { s with voiceFrames := s.voiceFrames - 1 }

/-- The kinds reported by the plain event handlers (window blur, clipboard,
context menu, blocked shortcut, devtools poll, display-topology poll). -/
def simpleKinds : List ViolationType :=
  [.WINDOW_BLUR, .COPY_ATTEMPT, .CONTEXT_MENU, .KEYBOARD_SHORTCUT,
   .DEVTOOLS_OPEN, .MULTIPLE_MONITORS]

/-- One asynchronous activity of the engine: each constructor is one
monitor callback of the source with its wall-clock time and environment
inputs. -/
inductive Ev
  /-- an event handler calling plain addViolation (blur, clipboard, context
  menu, blocked shortcut, devtools heuristic, display-topology poll). -/
  | simpleReport (now : Nat) (k : ViolationType) (detail : Option VDetail)
      (capW capS : Option String)
  /-- fullscreenchange with no fullscreen element (lines 168-176): forced
  screen capture tagged fullscreen_exit, then FULLSCREEN_EXIT. -/
  | fullscreenExit (now : Nat) (pre capW capS : Option String)
  /-- visibility hidden (lines 147-150). -/
  | tabHide (now : Nat) (capW capS : Option String)
  /-- visibility restored (lines 151-162). -/
  | tabShow (now : Nat)
  /-- the tracked screen track fired ended. -/
  | screenEnded (now : Nat) (capW capS : Option String)
  /-- one second of the 5-second reshare countdown elapsed. -/
  | countdownTick (now : Nat)
  /-- handleReshareScreen resolved with a track of the given surface. -/
  | reshare (now : Nat) (surface : Option DSurface)
  /-- one audio-monitor sample. -/
  | audioSample (now : Nat) (avg : ℚ) (capW : Option String)
  /-- the 12 s noise recording stopped; clipOk is blob.size ≥ 200, speechOk
  the speech-in-window check, lvl the closure-captured trigger level. -/
  | recorderDone (now : Nat) (speechOk clipOk : Bool) (clipData : String)
      (lvl : ℚ) (capW capS : Option String)
  /-- one face-detection cycle. -/
  | faceCycle (now : Nat) (obs : FaceObs) (capW capS : Option String)
  /-- one second of the session clock elapsed (lines 580-588). -/
  | timerTick (now : Nat)
  /-- confirmed manual submit (confirmSubmit, lines 574-577). -/
  | confirmSubmit (now : Nat)
  /-- the 7 s periodic capture (lines 539-550). -/
  | periodicCapture (now : Nat) (capW capS : Option String)

/-- The wall-clock time carried by an event. -/
def Ev.time : Ev → Nat
  | .simpleReport now _ _ _ _ => now
  | .fullscreenExit now _ _ _ => now
  | .tabHide now _ _ => now
  | .tabShow now => now
  | .screenEnded now _ _ => now
  | .countdownTick now => now
  | .reshare now _ => now
  | .audioSample now _ _ => now
  | .recorderDone now _ _ _ _ _ _ => now
  | .faceCycle now _ _ _ => now
  | .timerTick now => now
  | .confirmSubmit now => now
  | .periodicCapture now _ _ => now

/-- Advance the observed wall clock. -/
def tickTime (s : St) (now : Nat) : St := { s with time := now }

/-- The transition function: dispatch one event to its handler. -/
def step (s : St) (e : Ev) : St :=
  match e with
  | .simpleReport now k detail capW capS =>
    (addViolation (tickTime s now) now k { detail := detail } capW capS).1
  | .fullscreenExit now pre capW capS =>
    let s0 := tickTime s now
    let s1 := match pre with
      | some u => logCapture s0 now .screen u .fullscreen_exit
      | none => s0
    (addViolation s1 now .FULLSCREEN_EXIT { captureScreen := true } capW capS).1
  | .tabHide now capW capS =>
    let s0 := { tickTime s now with hidden := true, tabHiddenAt := some now }
    (addViolation s0 now .TAB_SWITCH { captureScreen := true } capW capS).1
  | .tabShow now =>
    let s0 := { tickTime s now with hidden := false }
    match s0.tabHiddenAt with
    | none => s0
    | some h =>
      let away := now - h
      let s1 := { s0 with tabHiddenAt := none }
      if away = 0 then s1
      else { s1 with violations := patchLastTabSwitch away s1.violations }
  | .screenEnded now capW capS =>
    let s0 := { tickTime s now with screenLive := false }
    match s0.screenHandler with
    | .original =>
      let s1 := { s0 with screenStopCount := s0.screenStopCount + 1 }
      if s1.screenStopCount ≥ 2 then
        let s2 := (addViolation s1 now .SCREEN_SHARE_STOPPED
          { detail := some (.text "Screen sharing stopped a second time - exam ended.") }
          capW capS).1
        doFinish s2
      else
        let s2 := (addViolation s1 now .SCREEN_SHARE_STOPPED {} capW capS).1
        { s2 with countdownActive := some 5 }
    | .reshared =>
      let s1 := { s0 with screenStopCount := s0.screenStopCount + 1 }
      let s2 := (addViolation s1 now .SCREEN_SHARE_STOPPED
        { detail := some (.text "Screen sharing stopped again - exam ended.") }
        capW capS).1
      doFinish s2
  | .countdownTick now =>
    let s0 := tickTime s now
    match s0.countdownActive with
    | none => s0
    | some n =>
      if n - 1 = 0 then
        let s1 := { s0 with countdownActive := none }
        if s1.screenLive then s1 else doFinish s1
      else { s0 with countdownActive := some (n - 1) }
  | .reshare now surface =>
    let s0 := tickTime s now
    match surface with
    | some .window => s0
    | some .browser => s0
    | _ =>
      { s0 with screenLive := true, screenHandler := .reshared,
                countdownActive := none }
  | .audioSample now avg capW => audioCheck (tickTime s now) now avg capW
  | .recorderDone now speechOk clipOk clipData lvl capW capS =>
    let s0 := { tickTime s now with saving := false }
    if clipOk then
      let s1 :=
        { s0 with audioClips := s0.audioClips ++ [{ timestamp := now, dataUrl := clipData }],
                  violations := s0.violations.map (fun v =>
                    if some v.id = s0.pendingNoiseId then { v with audioUrl := some clipData }
                    else v) }
      if speechOk then
        (addViolation s1 now .AUDIO_DETECTED
          { detail := some (.levelBaseline lvl s1.baseline) } capW capS).1
      else s1
    else s0
  | .faceCycle now obs capW capS => faceCycle (tickTime s now) now obs capW capS
  | .timerTick now =>
    let s0 := tickTime s now
    if s0.timeLeft ≤ 1 then
      let s1 := doFinish s0
      { s1 with timeLeft := 0 }
    else { s0 with timeLeft := s0.timeLeft - 1 }
  | .confirmSubmit now => doFinish (tickTime s now)
  | .periodicCapture now capW capS =>
    let s0 := tickTime s now
    let s1 := match capW with
      | some u => logCapture s0 now .webcam u .periodic
      | none => s0
    match capS with
    | some u => logCapture s1 now .screen u .periodic
    | none => s1

/-- Event admissibility: the wall clock is nondecreasing, and each callback
can only fire while its source (listener, interval, recorder) is armed. -/
def evOk (s : St) : Ev → Bool
  | .simpleReport now k _ _ _ => decide (s.time ≤ now) && decide (k ∈ simpleKinds)
  | .fullscreenExit now _ _ _ => decide (s.time ≤ now)
  | .tabHide now _ _ => decide (s.time ≤ now) && !s.hidden
  | .tabShow now => decide (s.time ≤ now) && s.hidden
  | .screenEnded now _ _ => decide (s.time ≤ now) && s.screenLive
  | .countdownTick now => decide (s.time ≤ now) && s.countdownActive.isSome
  | .reshare now _ => decide (s.time ≤ now) && s.countdownActive.isSome
  | .audioSample now _ _ => decide (s.time ≤ now)
  | .recorderDone now _ _ _ _ _ _ => decide (s.time ≤ now) && s.saving
  | .faceCycle now _ _ _ => decide (s.time ≤ now)
  | .timerTick now => decide (s.time ≤ now) && !s.submitted
  | .confirmSubmit now => decide (s.time ≤ now)
  | .periodicCapture now _ _ => decide (s.time ≤ now)

/-- A trace is valid from s when every event is admissible in the state it
meets. -/
def validFrom (s : St) : List Ev → Bool
  | [] => true
  | e :: rest => evOk s e && validFrom (step s e) rest

/-- Run a trace. -/
def run (s : St) (evs : List Ev) : St := evs.foldl step s

/-- The initial state of a session: duration d, mounted at wall-clock t0,
all monitors idle, screen share live with the original listener armed. -/
def init (d : Int) (t0 : Nat) : St :=
  { duration := d, time := t0, violations := [], captureLogs := [],
    audioClips := [], cooldown := fun _ => none, nextId := 0, timeLeft := d,
    hidden := false, tabHiddenAt := none, submitted := false, delivered := [],
    releaseCount := 0, screenLive := true, screenHandler := .original,
    screenStopCount := 0, countdownActive := none, faceStatus := .ok,
    missCount := 0, multiCount := 0, mismatchCount := 0, gazeAwayStart := none,
    calSamples := [], baseline := 28, calibrated := false, voiceFrames := 0,
    saving := false, lastNoiseFlag := none, pendingNoiseId := none }

/-- Number of violation records of a kind. -/
def countType (l : List Violation) (k : ViolationType) : Nat :=
  (l.filter (fun v => v.type = k)).length

/-- The append-ordered timestamps of the records of one kind in a record
list. -/
def tsOfL (l : List Violation) (k : ViolationType) : List Nat :=
  (l.filter (fun v => v.type = k)).map (fun v => v.timestamp)

/-- The append-ordered timestamps of the records of one kind in the store. -/
def tsOf (s : St) (k : ViolationType) : List Nat :=
  tsOfL s.violations k

/-- Kinds exempt from the same-kind spacing guarantee: TAB_SWITCH by design,
IDENTITY_MISMATCH because its call site sets the bypass flag. -/
def ExemptKind (k : ViolationType) : Prop :=
  k = .TAB_SWITCH ∨ k = .IDENTITY_MISMATCH

instance : DecidablePred ExemptKind := fun k => by
  unfold ExemptKind; infer_instance

/-- The configured same-kind cooldown. -/
def kindCooldown (k : ViolationType) : Nat :=
  if k = .NOISE_DETECTED then 12000 else 10000

/-- The last-fired stamp governing the next record of a kind: the noise
path keeps its own lastNoiseFlagMs, every other kind uses the cooldown
table. -/
def stampOpt (s : St) (k : ViolationType) : Option Nat :=
  if k = .NOISE_DETECTED then s.lastNoiseFlag else s.cooldown k

-- sanity examples (kept as compiled evidence that the model is executable)
example :
    countType (run (init 300 20000)
      [.simpleReport 20000 .WINDOW_BLUR none none none,
       .simpleReport 25000 .WINDOW_BLUR none none none]).violations .WINDOW_BLUR = 1 := by
  decide

example :
    countType (run (init 300 20000)
      [.simpleReport 20000 .WINDOW_BLUR none none none,
       .simpleReport 30000 .WINDOW_BLUR none none none]).violations .WINDOW_BLUR = 2 := by
  decide

/-! ## The reachability invariant -/

/-- The wall clock of a mounted session is past 1970-01-01T00:00:10Z. -/
def InvA (s : St) : Prop := 10000 ≤ s.time

/-- Cooldown bookkeeping: for every non-exempt kind, the stored timestamps
are spaced by the kind's cooldown, every stored timestamp is at most the
recorded last-fired stamp, and the stamp is in the past. -/
def InvB (s : St) : Prop := ∀ k, ¬ExemptKind k →
  List.Chain' (fun a b => a + kindCooldown k ≤ b) (tsOf s k) ∧
  (∀ t ∈ tsOf s k, ∃ st, stampOpt s k = some st ∧ t ≤ st) ∧
  (∀ st, stampOpt s k = some st → st ≤ s.time)

/-- The most recent TAB_SWITCH record exists and is still unpatched. -/
def LastTabUnpatched (l : List Violation) : Prop :=
  ∃ pre r post, l = pre ++ r :: post ∧ r.type = .TAB_SWITCH ∧
    r.awayMs = none ∧ ∀ v ∈ post, v.type ≠ .TAB_SWITCH

/-- While the tab is hidden, the hide instant is recorded and the most
recent TAB_SWITCH record is unpatched, ready for the away-duration patch. -/
def InvC (s : St) : Prop := s.hidden = true →
  (∃ h, s.tabHiddenAt = some h ∧ h ≤ s.time) ∧ LastTabUnpatched s.violations

/-- Finalize accounting: the payload is delivered exactly once per
submission, and the media tracks are released exactly as often. -/
def InvD (s : St) : Prop :=
  s.delivered.length = (if s.submitted then 1 else 0) ∧
  s.releaseCount = s.delivered.length

/-- Clock bounds: the remaining time stays within [0, duration], and every
delivered payload's timeSpent does too. -/
def InvE (s : St) : Prop :=
  0 ≤ s.timeLeft ∧ s.timeLeft ≤ s.duration ∧
  ∀ p ∈ s.delivered, 0 ≤ p.timeSpent ∧ p.timeSpent ≤ s.duration

/-- Before the first screen stop, no SCREEN_SHARE_STOPPED cooldown stamp
exists and the stop-count is zero. -/
def InvF (s : St) : Prop := s.screenLive = true → s.screenHandler = .original →
  s.cooldown .SCREEN_SHARE_STOPPED = none ∧ s.screenStopCount = 0

/-- The full reachability invariant. -/
def SysInv (s : St) : Prop := InvA s ∧ InvB s ∧ InvC s ∧ InvD s ∧ InvE s ∧ InvF s

/-! ## List-level helper lemmas -/

theorem tsOfL_append (l₁ l₂ : List Violation) (k : ViolationType) :
    tsOfL (l₁ ++ l₂) k = tsOfL l₁ k ++ tsOfL l₂ k := by
  simp [tsOfL, List.filter_append]

theorem tsOfL_single (v : Violation) (k : ViolationType) :
    tsOfL [v] k = if v.type = k then [v.timestamp] else [] := by
  by_cases h : v.type = k <;> simp [tsOfL, h]

theorem tsOfL_map_preserve (f : Violation → Violation)
    (hf : ∀ v, (f v).type = v.type ∧ (f v).timestamp = v.timestamp)
    (l : List Violation) (k : ViolationType) :
    tsOfL (l.map f) k = tsOfL l k := by
  induction l with
  | nil => rfl
  | cons v rest ih =>
    have h1 := (hf v).1
    have h2 := (hf v).2
    by_cases h : v.type = k <;>
      simp [tsOfL, List.filter, h1, h2, h] at ih ⊢ <;> exact ih

theorem tsOfL_patchLast (a : Nat) (l : List Violation) (k : ViolationType) :
    tsOfL (patchLastTabSwitch a l) k = tsOfL l k := by
  induction l with
  | nil => rfl
  | cons v rest ih =>
    unfold patchLastTabSwitch
    by_cases hany : rest.any (fun w => w.type = .TAB_SWITCH)
    · simp only [hany, if_true]
      by_cases h : v.type = k <;> simp [tsOfL, List.filter, h] at ih ⊢ <;> exact ih
    · simp only [Bool.not_eq_true] at hany
      simp only [hany, Bool.false_eq_true, if_false]
      by_cases htab : v.type = .TAB_SWITCH
      · simp only [htab, if_true]
        by_cases hk : ViolationType.TAB_SWITCH = k <;>
          simp [tsOfL, List.filter, htab, hk]
      · simp [htab]

theorem countType_eq_length_tsOfL (l : List Violation) (k : ViolationType) :
    countType l k = (tsOfL l k).length := by
  simp [countType, tsOfL]

theorem chain_gap_head {c : Nat} :
    ∀ {l : List Nat} {x : Nat},
      List.Chain' (fun a b => a + c ≤ b) (x :: l) → ∀ y ∈ l, x + c ≤ y := by
  intro l
  induction l with
  | nil => intro x _ y hy; cases hy
  | cons z zs ih =>
    intro x hch y hy
    rw [List.chain'_cons] at hch
    rcases List.mem_cons.mp hy with rfl | hy
    · exact hch.1
    · exact le_trans (Nat.le_trans hch.1 (Nat.le_add_right _ c)) (ih hch.2 y hy)

theorem chain_gap_pairwise {c : Nat} :
    ∀ {l : List Nat}, List.Chain' (fun a b => a + c ≤ b) l →
      List.Pairwise (fun a b => a + c ≤ b) l := by
  intro l
  induction l with
  | nil => intro _; exact List.Pairwise.nil
  | cons x xs ih =>
    intro hch
    refine List.pairwise_cons.mpr ⟨chain_gap_head hch, ih hch.tail⟩

theorem lastTab_append_nonTab {l : List Violation} {v : Violation}
    (hl : LastTabUnpatched l) (hv : v.type ≠ .TAB_SWITCH) :
    LastTabUnpatched (l ++ [v]) := by
  obtain ⟨pre, r, post, rfl, hr1, hr2, hpost⟩ := hl
  refine ⟨pre, r, post ++ [v], by simp, hr1, hr2, ?_⟩
  intro w hw
  rcases List.mem_append.mp hw with hw | hw
  · exact hpost w hw
  · rcases List.mem_singleton.mp hw with rfl; exact hv

theorem lastTab_append_tab {l : List Violation} {v : Violation}
    (hv : v.type = .TAB_SWITCH) (hva : v.awayMs = none) :
    LastTabUnpatched (l ++ [v]) :=
  ⟨l, v, [], rfl, hv, hva, by intro w hw; cases hw⟩

theorem lastTab_map_preserve {f : Violation → Violation}
    (hf : ∀ v, (f v).type = v.type ∧ (f v).awayMs = v.awayMs)
    {l : List Violation} (hl : LastTabUnpatched l) :
    LastTabUnpatched (l.map f) := by
  obtain ⟨pre, r, post, rfl, hr1, hr2, hpost⟩ := hl
  refine ⟨pre.map f, f r, post.map f, by simp, by rw [(hf r).1]; exact hr1,
    by rw [(hf r).2]; exact hr2, ?_⟩
  intro w hw
  obtain ⟨u, hu, rfl⟩ := List.mem_map.mp hw
  rw [(hf u).1]
  exact hpost u hu

theorem addViolation_blocked {s : St} {now : Nat} {k : ViolationType}
    {o : AVOpts} {capW capS : Option String} (h : avGate s now k o) :
    addViolation s now k o capW capS = (s, none) := by
  unfold addViolation; rw [if_pos h]

theorem addViolation_fired {s : St} {now : Nat} {k : ViolationType}
    {o : AVOpts} {capW capS : Option String} (h : ¬avGate s now k o) :
    addViolation s now k o capW capS =
      ({ s with
          cooldown :=
            if o.skipCooldown then s.cooldown
            else fun t => if t = k then some now else s.cooldown t,
          nextId := s.nextId + 3,
          violations := s.violations ++ [avRecord s now k o capW capS],
          captureLogs := s.captureLogs ++ avLogs s now o capW capS },
       some s.nextId) := by
  unfold addViolation; rw [if_neg h]

@[simp] theorem av_time (s : St) (now : Nat) (k : ViolationType) (o : AVOpts)
    (w c : Option String) : (addViolation s now k o w c).1.time = s.time := by
  unfold addViolation; by_cases h : avGate s now k o <;> simp [h]

@[simp] theorem av_timeLeft (s : St) (now : Nat) (k : ViolationType) (o : AVOpts)
    (w c : Option String) : (addViolation s now k o w c).1.timeLeft = s.timeLeft := by
  unfold addViolation; by_cases h : avGate s now k o <;> simp [h]

@[simp] theorem av_duration (s : St) (now : Nat) (k : ViolationType) (o : AVOpts)
    (w c : Option String) : (addViolation s now k o w c).1.duration = s.duration := by
  unfold addViolation; by_cases h : avGate s now k o <;> simp [h]

@[simp] theorem av_hidden (s : St) (now : Nat) (k : ViolationType) (o : AVOpts)
    (w c : Option String) : (addViolation s now k o w c).1.hidden = s.hidden := by
  unfold addViolation; by_cases h : avGate s now k o <;> simp [h]

@[simp] theorem av_tabHiddenAt (s : St) (now : Nat) (k : ViolationType) (o : AVOpts)
    (w c : Option String) : (addViolation s now k o w c).1.tabHiddenAt = s.tabHiddenAt := by
  unfold addViolation; by_cases h : avGate s now k o <;> simp [h]

@[simp] theorem av_submitted (s : St) (now : Nat) (k : ViolationType) (o : AVOpts)
    (w c : Option String) : (addViolation s now k o w c).1.submitted = s.submitted := by
  unfold addViolation; by_cases h : avGate s now k o <;> simp [h]

@[simp] theorem av_delivered (s : St) (now : Nat) (k : ViolationType) (o : AVOpts)
    (w c : Option String) : (addViolation s now k o w c).1.delivered = s.delivered := by
  unfold addViolation; by_cases h : avGate s now k o <;> simp [h]

@[simp] theorem av_releaseCount (s : St) (now : Nat) (k : ViolationType) (o : AVOpts)
    (w c : Option String) : (addViolation s now k o w c).1.releaseCount = s.releaseCount := by
  unfold addViolation; by_cases h : avGate s now k o <;> simp [h]

@[simp] theorem av_screenLive (s : St) (now : Nat) (k : ViolationType) (o : AVOpts)
    (w c : Option String) : (addViolation s now k o w c).1.screenLive = s.screenLive := by
  unfold addViolation; by_cases h : avGate s now k o <;> simp [h]

@[simp] theorem av_screenHandler (s : St) (now : Nat) (k : ViolationType) (o : AVOpts)
    (w c : Option String) : (addViolation s now k o w c).1.screenHandler = s.screenHandler := by
  unfold addViolation; by_cases h : avGate s now k o <;> simp [h]

@[simp] theorem av_screenStopCount (s : St) (now : Nat) (k : ViolationType) (o : AVOpts)
    (w c : Option String) : (addViolation s now k o w c).1.screenStopCount = s.screenStopCount := by
  unfold addViolation; by_cases h : avGate s now k o <;> simp [h]

@[simp] theorem av_countdownActive (s : St) (now : Nat) (k : ViolationType) (o : AVOpts)
    (w c : Option String) : (addViolation s now k o w c).1.countdownActive = s.countdownActive := by
  unfold addViolation; by_cases h : avGate s now k o <;> simp [h]

@[simp] theorem av_lastNoiseFlag (s : St) (now : Nat) (k : ViolationType) (o : AVOpts)
    (w c : Option String) : (addViolation s now k o w c).1.lastNoiseFlag = s.lastNoiseFlag := by
  unfold addViolation; by_cases h : avGate s now k o <;> simp [h]

@[simp] theorem av_saving (s : St) (now : Nat) (k : ViolationType) (o : AVOpts)
    (w c : Option String) : (addViolation s now k o w c).1.saving = s.saving := by
  unfold addViolation; by_cases h : avGate s now k o <;> simp [h]

@[simp] theorem av_gazeAwayStart (s : St) (now : Nat) (k : ViolationType) (o : AVOpts)
    (w c : Option String) : (addViolation s now k o w c).1.gazeAwayStart = s.gazeAwayStart := by
  unfold addViolation; by_cases h : avGate s now k o <;> simp [h]

@[simp] theorem av_mismatchCount (s : St) (now : Nat) (k : ViolationType) (o : AVOpts)
    (w c : Option String) : (addViolation s now k o w c).1.mismatchCount = s.mismatchCount := by
  unfold addViolation; by_cases h : avGate s now k o <;> simp [h]

@[simp] theorem av_missCount (s : St) (now : Nat) (k : ViolationType) (o : AVOpts)
    (w c : Option String) : (addViolation s now k o w c).1.missCount = s.missCount := by
  unfold addViolation; by_cases h : avGate s now k o <;> simp [h]

@[simp] theorem av_multiCount (s : St) (now : Nat) (k : ViolationType) (o : AVOpts)
    (w c : Option String) : (addViolation s now k o w c).1.multiCount = s.multiCount := by
  unfold addViolation; by_cases h : avGate s now k o <;> simp [h]

@[simp] theorem av_voiceFrames (s : St) (now : Nat) (k : ViolationType) (o : AVOpts)
    (w c : Option String) : (addViolation s now k o w c).1.voiceFrames = s.voiceFrames := by
  unfold addViolation; by_cases h : avGate s now k o <;> simp [h]

@[simp] theorem av_calibrated (s : St) (now : Nat) (k : ViolationType) (o : AVOpts)
    (w c : Option String) : (addViolation s now k o w c).1.calibrated = s.calibrated := by
  unfold addViolation; by_cases h : avGate s now k o <;> simp [h]

@[simp] theorem av_baseline (s : St) (now : Nat) (k : ViolationType) (o : AVOpts)
    (w c : Option String) : (addViolation s now k o w c).1.baseline = s.baseline := by
  unfold addViolation; by_cases h : avGate s now k o <;> simp [h]

@[simp] theorem av_calSamples (s : St) (now : Nat) (k : ViolationType) (o : AVOpts)
    (w c : Option String) : (addViolation s now k o w c).1.calSamples = s.calSamples := by
  unfold addViolation; by_cases h : avGate s now k o <;> simp [h]

@[simp] theorem av_pendingNoiseId (s : St) (now : Nat) (k : ViolationType) (o : AVOpts)
    (w c : Option String) : (addViolation s now k o w c).1.pendingNoiseId = s.pendingNoiseId := by
  unfold addViolation; by_cases h : avGate s now k o <;> simp [h]

@[simp] theorem doFinish_violations (s : St) : (doFinish s).violations = s.violations := by
  unfold doFinish; split <;> rfl

@[simp] theorem doFinish_captureLogs (s : St) : (doFinish s).captureLogs = s.captureLogs := by
  unfold doFinish; split <;> rfl

@[simp] theorem doFinish_audioClips (s : St) : (doFinish s).audioClips = s.audioClips := by
  unfold doFinish; split <;> rfl

@[simp] theorem doFinish_cooldown (s : St) : (doFinish s).cooldown = s.cooldown := by
  unfold doFinish; split <;> rfl

@[simp] theorem doFinish_nextId (s : St) : (doFinish s).nextId = s.nextId := by
  unfold doFinish; split <;> rfl

@[simp] theorem doFinish_time (s : St) : (doFinish s).time = s.time := by
  unfold doFinish; split <;> rfl

@[simp] theorem doFinish_timeLeft (s : St) : (doFinish s).timeLeft = s.timeLeft := by
  unfold doFinish; split <;> rfl

@[simp] theorem doFinish_duration (s : St) : (doFinish s).duration = s.duration := by
  unfold doFinish; split <;> rfl

@[simp] theorem doFinish_hidden (s : St) : (doFinish s).hidden = s.hidden := by
  unfold doFinish; split <;> rfl

@[simp] theorem doFinish_tabHiddenAt (s : St) : (doFinish s).tabHiddenAt = s.tabHiddenAt := by
  unfold doFinish; split <;> rfl

@[simp] theorem doFinish_screenHandler (s : St) : (doFinish s).screenHandler = s.screenHandler := by
  unfold doFinish; split <;> rfl

@[simp] theorem doFinish_screenStopCount (s : St) :
    (doFinish s).screenStopCount = s.screenStopCount := by
  unfold doFinish; split <;> rfl

@[simp] theorem doFinish_lastNoiseFlag (s : St) :
    (doFinish s).lastNoiseFlag = s.lastNoiseFlag := by
  unfold doFinish; split <;> rfl

@[simp] theorem doFinish_saving (s : St) : (doFinish s).saving = s.saving := by
  unfold doFinish; split <;> rfl

@[simp] theorem doFinish_submitted_true (s : St) : (doFinish s).submitted = true := by
  unfold doFinish; split
  · assumption
  · rfl

theorem doFinish_of_submitted {s : St} (h : s.submitted = true) : doFinish s = s := by
  unfold doFinish; rw [if_pos h]

theorem doFinish_idem (s : St) : doFinish (doFinish s) = doFinish s :=
  doFinish_of_submitted (doFinish_submitted_true s)

theorem patchLastTabSwitch_decomp (a : Nat) :
    ∀ (pre : List Violation) (r : Violation) (post : List Violation),
      r.type = .TAB_SWITCH → (∀ v ∈ post, v.type ≠ .TAB_SWITCH) →
      patchLastTabSwitch a (pre ++ r :: post) =
        pre ++ { r with awayMs := some a } :: post := by
  intro pre
  induction pre with
  | nil =>
    intro r post hr hpost
    unfold patchLastTabSwitch
    have hany : post.any (fun w => w.type = .TAB_SWITCH) = false := by
      rw [List.any_eq_false]
      intro w hw
      simpa using hpost w hw
    simp [hany, hr]
  | cons v pre ih =>
    intro r post hr hpost
    have hmem : r ∈ pre ++ r :: post := by simp
    have hany : (pre ++ r :: post).any (fun w => w.type = .TAB_SWITCH) = true := by
      rw [List.any_eq_true]
      exact ⟨r, hmem, by simpa using hr⟩
    show patchLastTabSwitch a (v :: (pre ++ r :: post)) = _
    unfold patchLastTabSwitch
    simp only [hany, if_true]
    rw [ih r post hr hpost]
    simp

/-! ## Field lemmas for avRecord and fired addViolation -/

@[simp] theorem avRecord_type (s : St) (now : Nat) (k : ViolationType)
    (o : AVOpts) (w c : Option String) : (avRecord s now k o w c).type = k := rfl

@[simp] theorem avRecord_timestamp (s : St) (now : Nat) (k : ViolationType)
    (o : AVOpts) (w c : Option String) : (avRecord s now k o w c).timestamp = now := rfl

@[simp] theorem avRecord_awayMs (s : St) (now : Nat) (k : ViolationType)
    (o : AVOpts) (w c : Option String) : (avRecord s now k o w c).awayMs = o.awayMs := rfl

@[simp] theorem avRecord_id (s : St) (now : Nat) (k : ViolationType)
    (o : AVOpts) (w c : Option String) : (avRecord s now k o w c).id = s.nextId := rfl

@[simp] theorem avRecord_webcamShot (s : St) (now : Nat) (k : ViolationType)
    (o : AVOpts) (w c : Option String) : (avRecord s now k o w c).webcamShot = w := rfl

@[simp] theorem avRecord_detail (s : St) (now : Nat) (k : ViolationType)
    (o : AVOpts) (w c : Option String) : (avRecord s now k o w c).detail = o.detail := rfl

theorem av_violations_fired {s : St} {now : Nat} {k : ViolationType}
    {o : AVOpts} {w c : Option String} (h : ¬avGate s now k o) :
    (addViolation s now k o w c).1.violations =
      s.violations ++ [avRecord s now k o w c] := by
  rw [addViolation_fired h]

theorem av_cooldown_fired {s : St} {now : Nat} {k : ViolationType}
    {o : AVOpts} {w c : Option String} (h : ¬avGate s now k o) :
    (addViolation s now k o w c).1.cooldown =
      if o.skipCooldown then s.cooldown
      else fun t => if t = k then some now else s.cooldown t := by
  rw [addViolation_fired h]

theorem av_snd_fired {s : St} {now : Nat} {k : ViolationType}
    {o : AVOpts} {w c : Option String} (h : ¬avGate s now k o) :
    (addViolation s now k o w c).2 = some s.nextId := by
  rw [addViolation_fired h]

/-! ## Invariant preservation under the primitive operations -/

theorem invB_addViolation {s : St} {now : Nat} {k : ViolationType} {o : AVOpts}
    {capW capS : Option String}
    (hB : InvB s) (htime : s.time = now)
    (hnoise : k ≠ .NOISE_DETECTED)
    (hskip : o.skipCooldown = true → k = .IDENTITY_MISMATCH) :
    InvB (addViolation s now k o capW capS).1 := by
  by_cases hg : avGate s now k o
  · rw [addViolation_blocked hg]; exact hB
  · intro k' hk'
    obtain ⟨hch, hmem, hst⟩ := hB k' hk'
    have hts : tsOf (addViolation s now k o capW capS).1 k' =
        tsOf s k' ++ (if k' = k then [now] else []) := by
      unfold tsOf
      rw [av_violations_fired hg, tsOfL_append, tsOfL_single]
      by_cases hkk : k' = k
      · simp [hkk]
      · have hkk2 : ¬(k = k') := fun h => hkk h.symm
        simp [hkk, hkk2]
    by_cases hkk : k' = k
    · subst hkk
      have hskipF : o.skipCooldown = false := by
        cases hq : o.skipCooldown
        · rfl
        · exact absurd (Or.inr (hskip hq)) hk'
      have hktab : k' ≠ .TAB_SWITCH := fun h => hk' (Or.inl h)
      have hgate : (s.cooldown k').getD 0 + 10000 ≤ now := by
        by_contra hlt
        push_neg at hlt
        exact hg ⟨hskipF, hktab, hlt⟩
      have hcool : (addViolation s now k' o capW capS).1.cooldown k' = some now := by
        rw [av_cooldown_fired hg]
        simp [hskipF]
      have hstampNew : stampOpt (addViolation s now k' o capW capS).1 k' = some now := by
        unfold stampOpt
        rw [if_neg hnoise, hcool]
      have hcd : kindCooldown k' = 10000 := by
        unfold kindCooldown; rw [if_neg hnoise]
      refine ⟨?_, ?_, ?_⟩
      · rw [hts, if_pos rfl]
        rw [List.chain'_append]
        refine ⟨hch, List.chain'_singleton now, ?_⟩
        intro x hx y hy
        have hxmem : x ∈ tsOf s k' := List.mem_of_mem_getLast? hx
        have hynow : now = y := by simpa using hy
        obtain ⟨st, hstEq, hxle⟩ := hmem x hxmem
        have hstD : (s.cooldown k').getD 0 = st := by
          unfold stampOpt at hstEq
          rw [if_neg hnoise] at hstEq
          rw [hstEq]; rfl
        rw [← hynow, hcd]
        omega
      · intro t ht
        rw [hts, if_pos rfl] at ht
        refine ⟨now, hstampNew, ?_⟩
        rcases List.mem_append.mp ht with ht | ht
        · obtain ⟨st, hstEq, htle⟩ := hmem t ht
          have := hst st hstEq
          omega
        · have : t = now := by simpa using ht
          omega
      · intro st hstEq
        rw [hstampNew] at hstEq
        have hstn : now = st := by injection hstEq
        rw [av_time, htime]
        omega
    · have hstamp : stampOpt (addViolation s now k o capW capS).1 k' = stampOpt s k' := by
        unfold stampOpt
        by_cases hkn : k' = .NOISE_DETECTED
        · rw [if_pos hkn, if_pos hkn, av_lastNoiseFlag]
        · rw [if_neg hkn, if_neg hkn, av_cooldown_fired hg]
          by_cases hsk : o.skipCooldown
          · rw [if_pos hsk]
          · rw [if_neg hsk]
            simp [hkk]
      refine ⟨?_, ?_, ?_⟩
      · rw [hts, if_neg hkk, List.append_nil]; exact hch
      · intro t ht
        rw [hts, if_neg hkk, List.append_nil] at ht
        rw [hstamp]
        exact hmem t ht
      · intro st hstEq
        rw [hstamp] at hstEq
        rw [av_time, htime]
        have := hst st hstEq
        omega

theorem invA_addViolation {s : St} {now : Nat} {k : ViolationType} {o : AVOpts}
    {capW capS : Option String} (h : InvA s) :
    InvA (addViolation s now k o capW capS).1 := by
  unfold InvA; rw [av_time]; exact h

theorem invC_addViolation_nonTab {s : St} {now : Nat} {k : ViolationType}
    {o : AVOpts} {capW capS : Option String}
    (hC : InvC s) (hk : k ≠ .TAB_SWITCH) :
    InvC (addViolation s now k o capW capS).1 := by
  intro hh
  rw [av_hidden] at hh
  obtain ⟨⟨h0, hh0, hhle⟩, hltu⟩ := hC hh
  refine ⟨⟨h0, by rw [av_tabHiddenAt]; exact hh0, by rw [av_time]; exact hhle⟩, ?_⟩
  by_cases hg : avGate s now k o
  · rw [addViolation_blocked hg]; exact hltu
  · rw [av_violations_fired hg]
    exact lastTab_append_nonTab hltu (by simp [hk])

theorem invD_addViolation {s : St} {now : Nat} {k : ViolationType} {o : AVOpts}
    {capW capS : Option String} (h : InvD s) :
    InvD (addViolation s now k o capW capS).1 := by
  unfold InvD at h ⊢
  rw [av_delivered, av_submitted, av_releaseCount]
  exact h

theorem invE_addViolation {s : St} {now : Nat} {k : ViolationType} {o : AVOpts}
    {capW capS : Option String} (h : InvE s) :
    InvE (addViolation s now k o capW capS).1 := by
  unfold InvE at h ⊢
  rw [av_timeLeft, av_duration, av_delivered]
  exact h

theorem invF_addViolation {s : St} {now : Nat} {k : ViolationType} {o : AVOpts}
    {capW capS : Option String} (hF : InvF s)
    (hk : k ≠ .SCREEN_SHARE_STOPPED ∨ s.screenLive = false) :
    InvF (addViolation s now k o capW capS).1 := by
  intro hlive horig
  rw [av_screenLive] at hlive
  rw [av_screenHandler] at horig
  rcases hk with hk | hk
  · obtain ⟨hc, hsc⟩ := hF hlive horig
    refine ⟨?_, by rw [av_screenStopCount]; exact hsc⟩
    by_cases hg : avGate s now k o
    · rw [addViolation_blocked hg]; exact hc
    · rw [av_cooldown_fired hg]
      by_cases hsk : o.skipCooldown
      · rw [if_pos hsk]; exact hc
      · rw [if_neg hsk]
        have hne : ¬(ViolationType.SCREEN_SHARE_STOPPED = k) := fun h => hk h.symm
        simp [hne, hc]
  · rw [hk] at hlive; cases hlive

theorem invA_doFinish {s : St} (h : InvA s) : InvA (doFinish s) := by
  unfold InvA; rw [doFinish_time]; exact h

theorem invB_doFinish {s : St} (h : InvB s) : InvB (doFinish s) := by
  intro k hk
  obtain ⟨h1, h2, h3⟩ := h k hk
  have hts : tsOf (doFinish s) k = tsOf s k := by
    unfold tsOf; rw [doFinish_violations]
  have hstamp : stampOpt (doFinish s) k = stampOpt s k := by
    unfold stampOpt; rw [doFinish_lastNoiseFlag, doFinish_cooldown]
  rw [hts, hstamp, doFinish_time]
  exact ⟨h1, h2, h3⟩

theorem invC_doFinish {s : St} (h : InvC s) : InvC (doFinish s) := by
  intro hh
  rw [doFinish_hidden] at hh
  obtain ⟨⟨h0, hh0, hle⟩, hltu⟩ := h hh
  exact ⟨⟨h0, by rw [doFinish_tabHiddenAt]; exact hh0,
          by rw [doFinish_time]; exact hle⟩,
         by rw [doFinish_violations]; exact hltu⟩

theorem invD_doFinish {s : St} (h : InvD s) : InvD (doFinish s) := by
  obtain ⟨h1, h2⟩ := h
  unfold doFinish
  by_cases hs : s.submitted = true
  · rw [if_pos hs]; exact ⟨h1, h2⟩
  · rw [if_neg hs]
    have hs' : s.submitted = false := by
      cases hq : s.submitted
      · rfl
      · exact absurd hq hs
    rw [hs'] at h1
    simp only [if_false, Bool.false_eq_true] at h1
    constructor
    · simp [h1]
    · simp [h1, h2]

theorem invE_doFinish {s : St} (h : InvE s) : InvE (doFinish s) := by
  obtain ⟨h1, h2, h3⟩ := h
  unfold doFinish
  by_cases hs : s.submitted = true
  · rw [if_pos hs]; exact ⟨h1, h2, h3⟩
  · rw [if_neg hs]
    refine ⟨h1, h2, ?_⟩
    intro p hp
    simp only [List.mem_append, List.mem_singleton] at hp
    rcases hp with hp | rfl
    · exact h3 p hp
    · constructor
      · simp only []
        omega
      · simp only []
        omega

theorem invF_doFinish {s : St} (h : InvF s) : InvF (doFinish s) := by
  intro hlive
  unfold doFinish at hlive ⊢
  by_cases hs : s.submitted = true
  · rw [if_pos hs] at hlive ⊢
    intro horig
    exact h hlive horig
  · rw [if_neg hs] at hlive
    simp at hlive

theorem sysInv_doFinish {s : St} (h : SysInv s) : SysInv (doFinish s) := by
  obtain ⟨hA, hB, hC, hD, hE, hF⟩ := h
  exact ⟨invA_doFinish hA, invB_doFinish hB, invC_doFinish hC,
         invD_doFinish hD, invE_doFinish hE, invF_doFinish hF⟩

theorem sysInv_tick {s : St} {now : Nat} (h : SysInv s) (hle : s.time ≤ now) :
    SysInv (tickTime s now) := by
  obtain ⟨hA, hB, hC, hD, hE, hF⟩ := h
  refine ⟨?_, ?_, ?_, hD, hE, hF⟩
  · unfold InvA at hA ⊢
    unfold tickTime
    simp only []
    omega
  · intro k hk
    obtain ⟨h1, h2, h3⟩ := hB k hk
    refine ⟨h1, h2, ?_⟩
    intro st hst
    have := h3 st hst
    unfold tickTime
    simp only []
    omega
  · intro hh
    obtain ⟨⟨h0, hh0, hle0⟩, hltu⟩ := hC hh
    exact ⟨⟨h0, hh0, by unfold tickTime; simp only []; omega⟩, hltu⟩

theorem sysInv_logCapture {s : St} {now : Nat} {kind : CaptureKind}
    {url : String} {trig : CaptureTrigger} (h : SysInv s) :
    SysInv (logCapture s now kind url trig) := h

/-! ## SysInv preservation through full events -/

theorem sysInv_addViolation {s : St} {now : Nat} {k : ViolationType} {o : AVOpts}
    {capW capS : Option String}
    (h : SysInv s) (htime : s.time = now)
    (hnoise : k ≠ .NOISE_DETECTED)
    (hskip : o.skipCooldown = true → k = .IDENTITY_MISMATCH)
    (htab : k ≠ .TAB_SWITCH)
    (hsss : k ≠ .SCREEN_SHARE_STOPPED ∨ s.screenLive = false) :
    SysInv (addViolation s now k o capW capS).1 :=
  ⟨invA_addViolation h.1, invB_addViolation h.2.1 htime hnoise hskip,
   invC_addViolation_nonTab h.2.2.1 htab, invD_addViolation h.2.2.2.1,
   invE_addViolation h.2.2.2.2.1, invF_addViolation h.2.2.2.2.2 hsss⟩


/-- Updates to fields no invariant component reads (counters, statuses,
logs, clips, identifiers, audio-monitor scratch state, countdown display)
preserve the invariant definitionally. -/
theorem sysInv_cosmetic {s : St} (h : SysInv s)
    {cl : List CaptureLog} {ac : List AudioClip} {ni : Nat} {fs : FaceStatus}
    {mi mu mm : Nat} {gz : Option Nat} {cs : List ℚ} {bl : ℚ} {cb : Bool}
    {vf : Nat} {sv : Bool} {pn : Option Nat} {cd : Option Nat} :
    SysInv { s with
      captureLogs := cl, audioClips := ac, nextId := ni, faceStatus := fs, missCount := mi, multiCount := mu, mismatchCount := mm,
      gazeAwayStart := gz, calSamples := cs, baseline := bl, calibrated := cb,
      voiceFrames := vf, saving := sv, pendingNoiseId := pn,
      countdownActive := cd } := h

theorem sysInv_screenOff {s : St} {n : Nat} (h : SysInv s) :
    SysInv { s with
      screenLive := false, screenStopCount := n } :=
  ⟨h.1, h.2.1, h.2.2.1, h.2.2.2.1, h.2.2.2.2.1, fun hl => nomatch hl⟩

theorem sysInv_reshareState {s : St} {cd : Option Nat} (h : SysInv s) :
    SysInv { s with
      screenLive := true, screenHandler := .reshared, countdownActive := cd } :=
  ⟨h.1, h.2.1, h.2.2.1, h.2.2.2.1, h.2.2.2.2.1, fun _ ho => nomatch ho⟩

theorem sysInv_unhide {s : St} {th : Option Nat} (h : SysInv s) :
    SysInv { s with
      hidden := false, tabHiddenAt := th } := by
  obtain ⟨g1, g2, _, g4, g5, g6⟩ := h
  refine ⟨g1, g2, ?_, g4, g5, g6⟩
  intro hh
  simp at hh

theorem sysInv_tabPatch {s : St} {th : Option Nat} {a : Nat} (h : SysInv s) :
    SysInv { s with
      hidden := false, tabHiddenAt := th,
      violations := patchLastTabSwitch a s.violations } := by
  obtain ⟨g1, g2, g3, g4, g5, g6⟩ := h
  refine ⟨g1, ?_, by intro hh; simp at hh, g4, g5, g6⟩
  intro k hk
  obtain ⟨h1, h2, h3⟩ := g2 k hk
  refine ⟨?_, ?_, h3⟩
  · show List.Chain' _ (tsOfL (patchLastTabSwitch a s.violations) k)
    rw [tsOfL_patchLast]
    exact h1
  · show ∀ t ∈ tsOfL (patchLastTabSwitch a s.violations) k, _
    rw [tsOfL_patchLast]
    exact h2

/-- InvB through the direct NOISE_DETECTED append of the audio monitor. -/
theorem invB_noiseAppend {s : St} {now : Nat} {v : Violation}
    {cl : List CaptureLog} {vf : Nat} {sv : Bool} {pn : Option Nat} {ni : Nat}
    (hB : InvB s) (htime : s.time = now)
    (hvt : v.type = .NOISE_DETECTED) (hvts : v.timestamp = now)
    (hng : noiseGate s.lastNoiseFlag now = true) :
    InvB { s with
           voiceFrames := vf, lastNoiseFlag := some now, saving := sv,
           pendingNoiseId := pn, nextId := ni,
           violations := s.violations ++ [v], captureLogs := cl } := by
  intro k hk
  obtain ⟨h1, h2, h3⟩ := hB k hk
  have hts : tsOfL (s.violations ++ [v]) k =
      tsOfL s.violations k ++ (if k = .NOISE_DETECTED then [now] else []) := by
    rw [tsOfL_append, tsOfL_single]
    by_cases hkk : k = .NOISE_DETECTED
    · simp [hvt, hvts, hkk]
    · have : ¬(v.type = k) := by rw [hvt]; exact fun hq => hkk hq.symm
      simp [this, hkk]
  by_cases hkk : k = .NOISE_DETECTED
  · subst hkk
    have hstampNew : stampOpt { s with
        voiceFrames := vf, lastNoiseFlag := some now, saving := sv,
        pendingNoiseId := pn, nextId := ni,
        violations := s.violations ++ [v], captureLogs := cl }
        .NOISE_DETECTED = some now := by
      unfold stampOpt; rw [if_pos rfl]
    have hcd : kindCooldown .NOISE_DETECTED = 12000 := rfl
    refine ⟨?_, ?_, ?_⟩
    · show List.Chain' _ (tsOfL (s.violations ++ [v]) .NOISE_DETECTED)
      rw [hts, if_pos rfl, List.chain'_append]
      refine ⟨h1, List.chain'_singleton now, ?_⟩
      intro x hx y hy
      have hxmem : x ∈ tsOf s .NOISE_DETECTED := List.mem_of_mem_getLast? hx
      have hynow : now = y := by simpa using hy
      obtain ⟨st, hstEq, hxle⟩ := h2 x hxmem
      have hflag : s.lastNoiseFlag = some st := by
        unfold stampOpt at hstEq
        rw [if_pos rfl] at hstEq
        exact hstEq
      rw [hflag] at hng
      unfold noiseGate at hng
      rw [decide_eq_true_eq] at hng
      rw [← hynow, hcd]
      omega
    · intro t ht
      show ∃ st, _
      rw [hstampNew]
      refine ⟨now, rfl, ?_⟩
      replace ht : t ∈ tsOfL (s.violations ++ [v]) .NOISE_DETECTED := ht
      rw [hts, if_pos rfl] at ht
      rcases List.mem_append.mp ht with ht | ht
      · obtain ⟨st, hstEq, htle⟩ := h2 t ht
        have := h3 st hstEq
        omega
      · have : t = now := by simpa using ht
        omega
    · intro st hstEq
      rw [hstampNew] at hstEq
      have hstn : now = st := by injection hstEq
      show st ≤ s.time
      omega
  · have hstamp : stampOpt { s with
        voiceFrames := vf, lastNoiseFlag := some now, saving := sv,
        pendingNoiseId := pn, nextId := ni,
        violations := s.violations ++ [v], captureLogs := cl } k =
        stampOpt s k := by
      unfold stampOpt
      rw [if_neg hkk, if_neg hkk]
    refine ⟨?_, ?_, ?_⟩
    · show List.Chain' _ (tsOfL (s.violations ++ [v]) k)
      rw [hts, if_neg hkk, List.append_nil]
      exact h1
    · intro t ht
      replace ht : t ∈ tsOfL (s.violations ++ [v]) k := ht
      rw [hts, if_neg hkk, List.append_nil] at ht
      show ∃ st, _
      rw [hstamp]
      exact h2 t ht
    · intro st hstEq
      rw [hstamp] at hstEq
      show st ≤ s.time
      exact h3 st hstEq

/-- InvC through any append of a non-TAB_SWITCH record with audio-monitor
bookkeeping updates. -/
theorem invC_appendAux {s : St} {v : Violation} {cl : List CaptureLog}
    {vf : Nat} {sv : Bool} {pn : Option Nat} {ni : Nat} {lnf : Option Nat}
    (hC : InvC s) (hv : v.type ≠ .TAB_SWITCH) :
    InvC { s with
           voiceFrames := vf, lastNoiseFlag := lnf, saving := sv,
           pendingNoiseId := pn, nextId := ni,
           violations := s.violations ++ [v], captureLogs := cl } := by
  intro hh
  obtain ⟨⟨h0, hh0, hle⟩, hltu⟩ := hC hh
  exact ⟨⟨h0, hh0, hle⟩, lastTab_append_nonTab hltu hv⟩

/-- SysInv through the recorder-completion clip attach (audioUrl patch by
identifier). -/
theorem sysInv_audioAttach {s : St} {ac : List AudioClip} {sv : Bool}
    {u : String} (h : SysInv s) :
    SysInv { s with
      saving := sv, audioClips := ac,
      violations := s.violations.map (fun v =>
        if some v.id = s.pendingNoiseId then { v with audioUrl := some u }
        else v) } := by
  obtain ⟨g1, g2, g3, g4, g5, g6⟩ := h
  have hf : ∀ v : Violation,
      ((fun v => if some v.id = s.pendingNoiseId then { v with audioUrl := some u }
        else v) v).type = v.type ∧
      ((fun v => if some v.id = s.pendingNoiseId then { v with audioUrl := some u }
        else v) v).timestamp = v.timestamp := by
    intro v
    by_cases hv : some v.id = s.pendingNoiseId <;> simp [hv]
  have hf2 : ∀ v : Violation,
      ((fun v => if some v.id = s.pendingNoiseId then { v with audioUrl := some u }
        else v) v).type = v.type ∧
      ((fun v => if some v.id = s.pendingNoiseId then { v with audioUrl := some u }
        else v) v).awayMs = v.awayMs := by
    intro v
    by_cases hv : some v.id = s.pendingNoiseId <;> simp [hv]
  refine ⟨g1, ?_, ?_, g4, g5, g6⟩
  · intro k hk
    obtain ⟨h1, h2, h3⟩ := g2 k hk
    refine ⟨?_, ?_, h3⟩
    · show List.Chain' _ (tsOfL (s.violations.map _) k)
      rw [tsOfL_map_preserve _ hf]
      exact h1
    · show ∀ t ∈ tsOfL (s.violations.map _) k, _
      rw [tsOfL_map_preserve _ hf]
      exact h2
  · intro hh
    obtain ⟨⟨h0, hh0, hle⟩, hltu⟩ := g3 hh
    exact ⟨⟨h0, hh0, hle⟩, lastTab_map_preserve hf2 hltu⟩

theorem sysInv_tabHide {s : St} {now : Nat} {capW capS : Option String}
    (h : SysInv s) (hle : s.time ≤ now) :
    SysInv (addViolation { tickTime s now with hidden := true, tabHiddenAt := some now }
      now .TAB_SWITCH { captureScreen := true } capW capS).1 := by
  obtain ⟨hA, hB, hC, hD, hE, hF⟩ := sysInv_tick h hle
  have hg : ¬avGate { tickTime s now with hidden := true, tabHiddenAt := some now }
      now .TAB_SWITCH { captureScreen := true } := fun hgg => hgg.2.1 rfl
  refine ⟨invA_addViolation hA, invB_addViolation hB rfl (by decide) ?_, ?_,
          invD_addViolation hD, invE_addViolation hE,
          invF_addViolation hF (Or.inl (by decide))⟩
  · intro hq; exact absurd hq (by decide)
  · intro _
    refine ⟨⟨now, ?_, ?_⟩, ?_⟩
    · simp
    · simp [tickTime]
    · rw [av_violations_fired hg]
      exact lastTab_append_tab rfl rfl

/-- sysInv_addViolation specialised to a plain detail-only call (the
hysteresis monitors and gaze path). -/
theorem sysInv_addDetailOnly {s : St} {now : Nat} {k : ViolationType}
    {d : Option VDetail} {capW capS : Option String}
    (h : SysInv s) (htime : s.time = now) (hnoise : k ≠ .NOISE_DETECTED)
    (htab : k ≠ .TAB_SWITCH)
    (hsss : k ≠ .SCREEN_SHARE_STOPPED ∨ s.screenLive = false) :
    SysInv (addViolation s now k { detail := d } capW capS).1 :=
  sysInv_addViolation h htime hnoise (fun hq => by simp at hq) htab hsss

/-- sysInv_addViolation specialised to the bypass-flagged identity call. -/
theorem sysInv_addIDM {s : St} {now : Nat} {d : Option VDetail}
    {capW capS : Option String} (h : SysInv s) (htime : s.time = now) :
    SysInv (addViolation s now .IDENTITY_MISMATCH
      { detail := d, skipCooldown := true } capW capS).1 :=
  sysInv_addViolation h htime (by decide) (fun _ => rfl) (by decide)
    (Or.inl (by decide))

theorem sysInv_step {s : St} {e : Ev} (h : SysInv s) (hok : evOk s e = true) :
    SysInv (step s e) := by
  cases e with
  | simpleReport now k detail capW capS =>
    simp only [evOk, Bool.and_eq_true, decide_eq_true_eq] at hok
    obtain ⟨hle, hkmem⟩ := hok
    have h1 := sysInv_tick h hle
    simp only [step]
    simp only [simpleKinds, List.mem_cons, List.not_mem_nil, or_false] at hkmem
    rcases hkmem with rfl | rfl | rfl | rfl | rfl | rfl <;>
      exact sysInv_addViolation h1 rfl (by decide)
        (fun hq => absurd hq (by simp)) (by decide) (Or.inl (by decide))
  | fullscreenExit now pre capW capS =>
    simp only [evOk, decide_eq_true_eq] at hok
    have h1 := sysInv_tick h hok
    simp only [step]
    cases pre with
    | none =>
      exact sysInv_addViolation h1 rfl (by decide)
        (fun hq => absurd hq (by simp)) (by decide) (Or.inl (by decide))
    | some u =>
      exact sysInv_addViolation (sysInv_logCapture h1) rfl (by decide)
        (fun hq => absurd hq (by simp)) (by decide) (Or.inl (by decide))
  | tabHide now capW capS =>
    simp only [evOk, Bool.and_eq_true, decide_eq_true_eq] at hok
    simp only [step]
    exact sysInv_tabHide h hok.1
  | tabShow now =>
    simp only [evOk, Bool.and_eq_true, decide_eq_true_eq] at hok
    have h1 := sysInv_tick h hok.1
    simp only [step]
    split
    · exact sysInv_unhide h1
    · split
      · exact sysInv_unhide h1
      · exact sysInv_tabPatch h1
  | screenEnded now capW capS =>
    simp only [evOk, Bool.and_eq_true, decide_eq_true_eq] at hok
    have h1 := sysInv_tick h hok.1
    simp only [step]
    split
    · split
      · exact sysInv_doFinish (sysInv_addViolation (sysInv_screenOff h1) rfl
          (by decide) (fun hq => absurd hq (by simp)) (by decide) (Or.inr rfl))
      · exact sysInv_cosmetic (sysInv_addViolation (sysInv_screenOff h1) rfl
          (by decide) (fun hq => absurd hq (by simp)) (by decide) (Or.inr rfl))
    · exact sysInv_doFinish (sysInv_addViolation (sysInv_screenOff h1) rfl
        (by decide) (fun hq => absurd hq (by simp)) (by decide) (Or.inr rfl))
  | countdownTick now =>
    simp only [evOk, Bool.and_eq_true, decide_eq_true_eq] at hok
    have h1 := sysInv_tick h hok.1
    simp only [step]
    split
    · exact h1
    · split
      · split
        · exact sysInv_cosmetic h1
        · exact sysInv_doFinish (sysInv_cosmetic h1)
      · exact sysInv_cosmetic h1
  | reshare now surface =>
    simp only [evOk, Bool.and_eq_true, decide_eq_true_eq] at hok
    have h1 := sysInv_tick h hok.1
    simp only [step]
    split
    · exact h1
    · exact h1
    · exact sysInv_reshareState h1
  | audioSample now avg capW =>
    simp only [evOk, decide_eq_true_eq] at hok
    have h1 := sysInv_tick h hok
    obtain ⟨g1, g2, g3, g4, g5, g6⟩ := h1
    simp only [step, audioCheck]
    split_ifs with hcal hlen hhi hvf hng
    · exact sysInv_cosmetic ⟨g1, g2, g3, g4, g5, g6⟩
    · exact sysInv_cosmetic ⟨g1, g2, g3, g4, g5, g6⟩
    · exact ⟨g1, invB_noiseAppend g2 rfl rfl rfl hng,
        invC_appendAux g3 (by intro hq; simp at hq), g4, g5, g6⟩
    · exact sysInv_cosmetic ⟨g1, g2, g3, g4, g5, g6⟩
    · exact sysInv_cosmetic ⟨g1, g2, g3, g4, g5, g6⟩
    · exact sysInv_cosmetic ⟨g1, g2, g3, g4, g5, g6⟩
  | recorderDone now speechOk clipOk clipData lvl capW capS =>
    simp only [evOk, Bool.and_eq_true, decide_eq_true_eq] at hok
    have h1 := sysInv_tick h hok.1
    simp only [step]
    split
    · split
      · refine sysInv_addViolation ?_ (by simp [tickTime]) (by decide)
          (fun hq => absurd hq (by simp)) (by decide) (Or.inl (by decide))
        exact sysInv_audioAttach h1
      · exact sysInv_audioAttach h1
    · exact sysInv_cosmetic h1
  | faceCycle now obs capW capS =>
    simp only [evOk, decide_eq_true_eq] at hok
    have h1 := sysInv_tick h hok
    simp only [step]
    rcases obs with _ | _ | _ | ⟨pose, sim⟩
    · exact h1
    · simp only [faceCycle]
      split
      · exact sysInv_cosmetic (sysInv_addDetailOnly (sysInv_cosmetic h1) (by simp [tickTime])
          (by decide) (by decide) (Or.inl (by decide)))
      · exact sysInv_cosmetic h1
    · simp only [faceCycle]
      split
      · exact sysInv_cosmetic (sysInv_addDetailOnly (sysInv_cosmetic h1) (by simp [tickTime])
          (by decide) (by decide) (Or.inl (by decide)))
      · exact sysInv_cosmetic h1
    · rcases pose with _ | ⟨yaw, pitch⟩ <;> rcases sim with _ | sv <;>
        simp only [faceCycle] <;> split_ifs <;>
        first
        | exact sysInv_cosmetic h1
        | exact sysInv_cosmetic (sysInv_addDetailOnly (sysInv_cosmetic h1) (by simp [tickTime])
            (by decide) (by decide) (Or.inl (by decide)))
        | exact sysInv_cosmetic (sysInv_addIDM (sysInv_cosmetic h1) (by simp [tickTime]))
        | exact sysInv_cosmetic (sysInv_addIDM (sysInv_cosmetic
            (sysInv_addDetailOnly (sysInv_cosmetic h1) (by simp [tickTime])
              (by decide) (by decide) (Or.inl (by decide))))
            (by simp [tickTime]))
  | timerTick now =>
    simp only [evOk, Bool.and_eq_true, decide_eq_true_eq] at hok
    have h1 := sysInv_tick h hok.1
    simp only [step]
    split
    · have hf := sysInv_doFinish h1
      obtain ⟨f1, f2, f3, f4, f5, f6⟩ := hf
      obtain ⟨e1, e2, e3⟩ := f5
      exact ⟨f1, f2, f3, f4, ⟨le_refl 0, le_trans e1 e2, e3⟩, f6⟩
    · obtain ⟨f1, f2, f3, f4, f5, f6⟩ := h1
      obtain ⟨e1, e2, e3⟩ := f5
      rename_i hz
      refine ⟨f1, f2, f3, f4, ⟨?_, ?_, e3⟩, f6⟩
      · show (0:Int) ≤ (tickTime s now).timeLeft - 1
        omega
      · show (tickTime s now).timeLeft - 1 ≤ (tickTime s now).duration
        omega
  | confirmSubmit now =>
    simp only [evOk, decide_eq_true_eq] at hok
    simp only [step]
    exact sysInv_doFinish (sysInv_tick h hok)
  | periodicCapture now capW capS =>
    simp only [evOk, decide_eq_true_eq] at hok
    have h1 := sysInv_tick h hok
    simp only [step]
    cases capW with
    | none =>
      cases capS with
      | none => exact h1
      | some u => exact sysInv_logCapture h1
    | some u =>
      cases capS with
      | none => exact sysInv_logCapture h1
      | some u2 => exact sysInv_logCapture (sysInv_logCapture h1)

theorem sysInv_run {s : St} {evs : List Ev} (h : SysInv s)
    (hv : validFrom s evs = true) : SysInv (run s evs) := by
  induction evs generalizing s with
  | nil => exact h
  | cons e rest ih =>
    simp only [validFrom, Bool.and_eq_true] at hv
    exact ih (sysInv_step h hv.1) hv.2

theorem sysInv_init {d : Int} {t0 : Nat} (hd : 0 ≤ d) (ht : 10000 ≤ t0) :
    SysInv (init d t0) := by
  refine ⟨ht, ?_, ?_, ?_, ?_, ?_⟩
  · intro k hk
    refine ⟨?_, ?_, ?_⟩
    · show List.Chain' _ (tsOfL [] k)
      exact List.chain'_nil
    · intro t ht2
      exact absurd ht2 (by simp [tsOf, tsOfL, init])
    · intro st hst
      unfold stampOpt at hst
      by_cases hkn : k = .NOISE_DETECTED <;> simp [init, hkn] at hst
  · intro hh; exact absurd hh (by simp [init])
  · exact ⟨rfl, rfl⟩
  · exact ⟨hd, le_refl d, fun p hp => absurd hp (by simp [init])⟩
  · intro _ _; exact ⟨rfl, rfl⟩

/-! ## Reachability and counting helpers -/

/-- A store state reachable by some valid trace of a session with a
non-negative configured duration. -/
def Reachable (s : St) : Prop :=
  ∃ (d : Int) (t0 : Nat) (evs : List Ev), 0 ≤ d ∧ 10000 ≤ t0 ∧
    validFrom (init d t0) evs = true ∧ run (init d t0) evs = s

theorem sysInv_reachable {s : St} (h : Reachable s) : SysInv s := by
  obtain ⟨d, t0, evs, hd, ht, hv, rfl⟩ := h
  exact sysInv_run (sysInv_init hd ht) hv

theorem countType_append (l : List Violation) (v : Violation) (k : ViolationType) :
    countType (l ++ [v]) k = countType l k + (if v.type = k then 1 else 0) := by
  rw [countType_eq_length_tsOfL, countType_eq_length_tsOfL, tsOfL_append, tsOfL_single]
  by_cases h : v.type = k <;> simp [h]

theorem countType_patchLast (a : Nat) (l : List Violation) (k : ViolationType) :
    countType (patchLastTabSwitch a l) k = countType l k := by
  rw [countType_eq_length_tsOfL, countType_eq_length_tsOfL, tsOfL_patchLast]

theorem countType_map_pres {f : Violation → Violation}
    (hf : ∀ v, (f v).type = v.type) (l : List Violation) (k : ViolationType) :
    countType (l.map f) k = countType l k := by
  induction l with
  | nil => rfl
  | cons v rest ih =>
    have h1 := hf v
    by_cases h : v.type = k <;>
      simp [countType, List.filter, h1, h] at ih ⊢ <;> exact ih

theorem countType_addViolation_ne {s : St} {now : Nat} {k : ViolationType}
    {o : AVOpts} {w c : Option String} {k' : ViolationType} (h : k ≠ k') :
    countType (addViolation s now k o w c).1.violations k' =
      countType s.violations k' := by
  by_cases hg : avGate s now k o
  · rw [addViolation_blocked hg]
  · rw [av_violations_fired hg, countType_append]
    simp [h]

theorem countType_addViolation_fired {s : St} {now : Nat} {k : ViolationType}
    {o : AVOpts} {w c : Option String} (hg : ¬avGate s now k o) :
    countType (addViolation s now k o w c).1.violations k =
      countType s.violations k + 1 := by
  rw [av_violations_fired hg, countType_append]
  simp

/-! ## C1: finalize idempotence -/

/-- C1: finalize is idempotent.  (i) invoking doFinish on a submitted state
is a silent no-op and doFinish is idempotent; (ii) on every reachable
state, the number of delivered payloads is one when the session is
submitted and zero otherwise, resources were released exactly as many
times, and hence at most one payload is ever delivered and resources are
released at most once; (iii) each of the four finalize triggers (confirmed
manual submit, time-up tick, second screen-share stop via the re-armed
listener, countdown expiry without a live replacement track) leaves the
state submitted, so by (ii) exactly one payload has then been delivered. -/
theorem C1_finalize_idempotent :
    (∀ s : St, s.submitted = true → doFinish s = s) ∧
    (∀ s : St, doFinish (doFinish s) = doFinish s) ∧
    (∀ s : St, Reachable s →
      s.delivered.length = (if s.submitted then 1 else 0) ∧
      s.releaseCount = s.delivered.length ∧ s.delivered.length ≤ 1) ∧
    (∀ (s : St) (now : Nat), (step s (.confirmSubmit now)).submitted = true) ∧
    (∀ (s : St) (now : Nat), s.timeLeft ≤ 1 →
      (step s (.timerTick now)).submitted = true) ∧
    (∀ (s : St) (now : Nat) (capW capS : Option String),
      s.screenHandler = .reshared →
      (step s (.screenEnded now capW capS)).submitted = true) ∧
    (∀ (s : St) (now : Nat), s.countdownActive = some 1 → s.screenLive = false →
      (step s (.countdownTick now)).submitted = true) := by
  refine ⟨fun s h => doFinish_of_submitted h, doFinish_idem, ?_, ?_, ?_, ?_, ?_⟩
  · intro s hs
    obtain ⟨hD1, hD2⟩ := (sysInv_reachable hs).2.2.2.1
    refine ⟨hD1, hD2, ?_⟩
    rw [hD1]
    split <;> omega
  · intro s now
    simp only [step]
    exact doFinish_submitted_true _
  · intro s now hle
    simp only [step]
    rw [if_pos (show (tickTime s now).timeLeft ≤ 1 from hle)]
    exact doFinish_submitted_true _
  · intro s now capW capS hsh
    simp only [step]
    have : ({ tickTime s now with screenLive := false } : St).screenHandler =
        ScreenHandler.reshared := hsh
    rw [this]
    exact doFinish_submitted_true _
  · intro s now hcd hlive
    simp only [step]
    split
    · rename_i heq
      simp only [tickTime] at heq
      rw [hcd] at heq
      cases heq
    · rename_i n heq
      have hn : n = 1 := by
        simp only [tickTime] at heq
        rw [hcd] at heq
        exact (Option.some_inj.mp heq).symm
      subst hn
      rw [if_pos (show (1:Nat) - 1 = 0 from rfl)]
      rw [if_neg (show ¬(({ tickTime s now with countdownActive := none } : St).screenLive = true) from by
        simp [tickTime, hlive])]
      exact doFinish_submitted_true _

/-- Witness for C1 at a concrete trace: a single confirmed submit delivers
exactly one payload and releases resources exactly once; a repeated
finalize on the resulting state is an exact no-op. -/
theorem C1_finalize_idempotent_witness :
    (run (init 300 10000) [.confirmSubmit 10000]).delivered.length = 1 ∧
    (run (init 300 10000) [.confirmSubmit 10000]).releaseCount = 1 ∧
    doFinish (run (init 300 10000) [.confirmSubmit 10000]) =
      run (init 300 10000) [.confirmSubmit 10000] := by
  obtain ⟨h1, _, h3, _⟩ := C1_finalize_idempotent
  have hreach : Reachable (run (init 300 10000) [.confirmSubmit 10000]) :=
    ⟨300, 10000, [.confirmSubmit 10000], by decide, by decide, by decide, rfl⟩
  obtain ⟨ha, hb, _⟩ := h3 _ hreach
  refine ⟨?_, ?_, ?_⟩
  · rw [ha]; decide
  · rw [hb, ha]; decide
  · exact h1 _ (by decide)

/-! ## C2: same-kind cooldown spacing -/

/-- C2: in every reachable store state, the append-ordered timestamps of
the records of any violation kind other than TAB_SWITCH and the
bypass-flagged IDENTITY_MISMATCH are pairwise separated by at least the
configured cooldown: 12000 ms for NOISE_DETECTED and 10000 ms for every
kind reported through addViolation. -/
theorem C2_cooldown_spacing (s : St) (hreach : Reachable s)
    (k : ViolationType) (hk : ¬ExemptKind k) :
    List.Pairwise (fun a b => a + kindCooldown k ≤ b) (tsOf s k) :=
  chain_gap_pairwise ((sysInv_reachable hreach).2.1 k hk).1

/-- Witness for C2: two WINDOW_BLUR reports 10 s apart both land in the
store and satisfy the spacing bound. -/
theorem C2_cooldown_spacing_witness :
    tsOf (run (init 300 20000)
      [.simpleReport 20000 .WINDOW_BLUR none none none,
       .simpleReport 30000 .WINDOW_BLUR none none none]) .WINDOW_BLUR =
      [20000, 30000] ∧
    List.Pairwise (fun a b => a + kindCooldown .WINDOW_BLUR ≤ b)
      (tsOf (run (init 300 20000)
        [.simpleReport 20000 .WINDOW_BLUR none none none,
         .simpleReport 30000 .WINDOW_BLUR none none none]) .WINDOW_BLUR) := by
  constructor
  · decide
  · exact C2_cooldown_spacing _
      ⟨300, 20000, [.simpleReport 20000 .WINDOW_BLUR none none none,
        .simpleReport 30000 .WINDOW_BLUR none none none],
        by decide, by decide, by decide, rfl⟩
      .WINDOW_BLUR (by decide)

/-! ## C3: the report_violation contract -/

/-- C3 (amended): a call with an active cooldown on a non-exempt kind and
no bypass flag is an exact no-op returning no identifier.  A call that
fires always records the webcam capture result, captures a screen snapshot
exactly when the option requests it, appends exactly one Violation record
and one CaptureLog entry per successful snapshot, and returns the new
record's identifier; it stamps the cooldown table for its kind unless the
bypass flag is set, in which case the table is left unchanged (the code
skips the stamp for bypass-flagged calls, contrary to the original claim). -/
theorem C3_report_violation (s : St) (now : Nat) (k : ViolationType)
    (o : AVOpts) (capW capS : Option String) :
    (avGate s now k o → addViolation s now k o capW capS = (s, none)) ∧
    (¬avGate s now k o →
      (addViolation s now k o capW capS).2 = some s.nextId ∧
      (addViolation s now k o capW capS).1.violations =
        s.violations ++ [avRecord s now k o capW capS] ∧
      (avRecord s now k o capW capS).webcamShot = capW ∧
      (avRecord s now k o capW capS).screenShot =
        (if o.captureScreen then capS else none) ∧
      (avRecord s now k o capW capS).id = s.nextId ∧
      (addViolation s now k o capW capS).1.cooldown =
        (if o.skipCooldown then s.cooldown
         else fun t => if t = k then some now else s.cooldown t) ∧
      (addViolation s now k o capW capS).1.captureLogs =
        s.captureLogs ++ avLogs s now o capW capS ∧
      (avLogs s now o capW capS).length =
        (if capW.isSome then 1 else 0) +
        (if (if o.captureScreen then capS else none : Option String).isSome
         then 1 else 0)) := by
  constructor
  · intro hg
    exact addViolation_blocked hg
  · intro hg
    refine ⟨av_snd_fired hg, av_violations_fired hg, rfl, rfl, rfl,
            av_cooldown_fired hg, by rw [addViolation_fired hg], ?_⟩
    unfold avLogs
    cases capW <;> cases hs : (if o.captureScreen then capS else none : Option String) <;>
      simp [hs]

/-- Counterexample to C3 as stated: a bypass-flagged call on a fresh state
fires (appends a record and returns its identifier) yet leaves the
cooldown table unchanged, so a firing call does not always stamp the
table. -/
theorem C3_counterexample :
    (addViolation (init 300 20000) 20000 .IDENTITY_MISMATCH
      { skipCooldown := true } none none).2 = some 0 ∧
    (addViolation (init 300 20000) 20000 .IDENTITY_MISMATCH
      { skipCooldown := true } none none).1.violations.length = 1 ∧
    (addViolation (init 300 20000) 20000 .IDENTITY_MISMATCH
      { skipCooldown := true } none none).1.cooldown .IDENTITY_MISMATCH =
      none := by
  refine ⟨?_, ?_, ?_⟩ <;> decide

/-- Witness for C3 at concrete inputs: a WINDOW_BLUR call within 10 s of a
previous one is an exact no-op, and a fresh firing call stamps the table
and appends the record. -/
theorem C3_report_violation_witness :
    (addViolation (run (init 300 20000)
        [.simpleReport 20000 .WINDOW_BLUR none none none]) 25000
      .WINDOW_BLUR {} none none) =
      (run (init 300 20000) [.simpleReport 20000 .WINDOW_BLUR none none none],
       none) ∧
    (addViolation (init 300 20000) 20000 .WINDOW_BLUR {} none none).2 =
      some 0 := by
  constructor
  · exact (C3_report_violation _ 25000 .WINDOW_BLUR {} none none).1 (by decide)
  · exact ((C3_report_violation (init 300 20000) 20000 .WINDOW_BLUR {} none
      none).2 (by decide)).1

/-! ## C9: capture failure is never a detection failure -/

/-- readyState of a MediaStreamTrack. -/
inductive TrackState | live | ended
  deriving DecidableEq, Repr

/-- A video track of a media stream. -/
structure MTrack where
  readyState : TrackState
  deriving DecidableEq, Repr

/-- A media stream as snapStream sees it. -/
structure MStream where
  videoTracks : List MTrack
  deriving DecidableEq, Repr

/-- snapStream (src/lib/proctoring.ts lines 173-201): returns undefined
when the stream is absent, has no video track, or its first track is not
live; otherwise returns the drawn frame.  The ImageCapture path and the
video-element fallback both produce a frame or fall into the catch, which
the draw parameter models (none = grab/draw raised). -/
def snapStream (stream : Option MStream) (draw : Option String) : Option String :=
  match stream with
  | none => none
  | some st =>
    match st.videoTracks.head? with
    | none => none
    | some tr =>
      match tr.readyState with
      | .live => draw
      | .ended => none

/-- C9: capture failure is never a detection failure.  snapStream yields
none exactly in the failure cases (absent stream, no track, non-live
track, draw error), and a firing addViolation call still appends its
record whatever the two capture results are: the optional fields carry the
snapStream results verbatim, and in particular a call with both captures
failed appends a record with both fields omitted; no capture-log entry is
fabricated for a failed capture. -/
theorem C9_capture_failure (s : St) (now : Nat) (k : ViolationType)
    (o : AVOpts) (stream : Option MStream) (draw : Option String)
    (capS : Option String) :
    (snapStream none draw = none) ∧
    (∀ st : MStream, st.videoTracks = [] → snapStream (some st) draw = none) ∧
    (∀ (st : MStream) (tr : MTrack) (rest : List MTrack),
      st.videoTracks = tr :: rest → tr.readyState = .ended →
      snapStream (some st) draw = none) ∧
    (∀ (st : MStream) (tr : MTrack) (rest : List MTrack),
      st.videoTracks = tr :: rest → tr.readyState = .live →
      snapStream (some st) draw = draw) ∧
    (¬avGate s now k o →
      (addViolation s now k o (snapStream stream draw) capS).1.violations =
        s.violations ++ [avRecord s now k o (snapStream stream draw) capS] ∧
      (avRecord s now k o (snapStream stream draw) capS).webcamShot =
        snapStream stream draw ∧
      (addViolation s now k o none none).1.violations.length =
        s.violations.length + 1 ∧
      (avRecord s now k o none none).webcamShot = none ∧
      (avRecord s now k o none none).screenShot = none ∧
      (avLogs s now o none none).length = 0) := by
  refine ⟨rfl, ?_, ?_, ?_, ?_⟩
  · intro st hst
    simp [snapStream, hst]
  · intro st tr rest hst htr
    simp [snapStream, hst, htr]
  · intro st tr rest hst htr
    simp [snapStream, hst, htr]
  · intro hg
    refine ⟨av_violations_fired hg, rfl, ?_, rfl, ?_, ?_⟩
    · rw [av_violations_fired hg]
      simp
    · show (if o.captureScreen then none else none : Option String) = none
      split <;> rfl
    · unfold avLogs
      have hnone : (if o.captureScreen then none else none : Option String) = none := by
        split <;> rfl
      rw [hnone]
      rfl
/-- Witness for C9: on a concrete fresh state, a NO_FACE report with a
dead webcam stream (track ended) and no screen capture still appends
exactly one record with no snapshots and no capture-log entries. -/
theorem C9_capture_failure_witness :
    snapStream (some ⟨[⟨.ended⟩]⟩) (some "img") = none ∧
    (addViolation (init 300 20000) 20000 .NO_FACE {}
      (snapStream (some ⟨[⟨.ended⟩]⟩) (some "img")) none).1.violations =
      (init 300 20000).violations ++
        [avRecord (init 300 20000) 20000 .NO_FACE {}
          (snapStream (some ⟨[⟨.ended⟩]⟩) (some "img")) none] ∧
    (addViolation (init 300 20000) 20000 .NO_FACE {} none none).1.violations.length =
      (init 300 20000).violations.length + 1 := by
  have h := C9_capture_failure (init 300 20000) 20000 .NO_FACE {}
    (some ⟨[⟨.ended⟩]⟩) (some "img") none
  obtain ⟨-, -, h3, -, h5⟩ := h
  have hg : ¬avGate (init 300 20000) 20000 .NO_FACE {} := by decide
  obtain ⟨ha, -, hc, -⟩ := h5 hg
  exact ⟨h3 ⟨[⟨.ended⟩]⟩ ⟨.ended⟩ [] rfl rfl, ha, hc⟩

/-! ## C10: clock bounds -/

theorem audioCheck_duration (s : St) (now : Nat) (avg : ℚ) (w : Option String) :
    (audioCheck s now avg w).duration = s.duration := by
  unfold audioCheck
  dsimp only
  repeat' split
  all_goals rfl

theorem faceCycle_duration (s : St) (now : Nat) (obs : FaceObs)
    (w c : Option String) : (faceCycle s now obs w c).duration = s.duration := by
  cases obs with
  | detectFail => rfl
  | faces0 => simp only [faceCycle]; split_ifs <;> simp
  | facesMany => simp only [faceCycle]; split_ifs <;> simp
  | face1 pose sim =>
    rcases pose with _ | ⟨yaw, pitch⟩ <;> rcases sim with _ | sv <;>
      simp only [faceCycle] <;> split_ifs <;> simp

theorem step_duration (s : St) (e : Ev) : (step s e).duration = s.duration := by
  cases e with
  | simpleReport now k dt w c => simp [step, tickTime]
  | fullscreenExit now p w c => cases p <;> simp [step, tickTime, logCapture]
  | tabHide now w c => simp [step, tickTime]
  | tabShow now =>
    simp only [step]
    split
    · rfl
    · split <;> rfl
  | screenEnded now w c =>
    simp only [step]
    split
    · split <;> simp [tickTime]
    · simp [tickTime]
  | countdownTick now =>
    simp only [step]
    split
    · rfl
    · split
      · split <;> simp [tickTime]
      · rfl
  | reshare now surface =>
    simp only [step]
    split <;> rfl
  | audioSample now avg w => simp [step, audioCheck_duration, tickTime]
  | recorderDone now so co cd lvl w c =>
    simp only [step]
    split
    · split <;> simp [tickTime]
    · rfl
  | faceCycle now obs w c => simp [step, faceCycle_duration, tickTime]
  | timerTick now =>
    simp only [step]
    split <;> simp [tickTime]
  | confirmSubmit now => simp [step, tickTime]
  | periodicCapture now w c =>
    simp only [step]
    cases w <;> cases c <;> simp [tickTime, logCapture]

theorem run_duration (s : St) (evs : List Ev) : (run s evs).duration = s.duration := by
  induction evs generalizing s with
  | nil => rfl
  | cons e rest ih =>
    show (run (step s e) rest).duration = s.duration
    rw [ih, step_duration]

/-- C10: for a session with positive configured duration, the remaining
time of every reachable state lies in [0, duration]; the one-second tick
clamps an expiring clock to exactly 0 while invoking finalize at that
point (the state becomes submitted) and otherwise just decrements; hence
the timeSpent field of every delivered payload lies between 0 and the
configured duration inclusive. -/
theorem C10_time_bounds (d : Int) (t0 : Nat) (evs : List Ev)
    (hd : 0 < d) (ht : 10000 ≤ t0) (hv : validFrom (init d t0) evs = true) :
    (0 ≤ (run (init d t0) evs).timeLeft ∧
     (run (init d t0) evs).timeLeft ≤ d ∧
     ∀ p ∈ (run (init d t0) evs).delivered,
       0 ≤ p.timeSpent ∧ p.timeSpent ≤ d) ∧
    (∀ (s : St) (now : Nat), s.timeLeft ≤ 1 →
      (step s (.timerTick now)).timeLeft = 0 ∧
      (step s (.timerTick now)).submitted = true) ∧
    (∀ (s : St) (now : Nat), 1 < s.timeLeft →
      (step s (.timerTick now)).timeLeft = s.timeLeft - 1) := by
  have hInv := sysInv_run (sysInv_init (le_of_lt hd) ht) hv
  obtain ⟨e1, e2, e3⟩ := hInv.2.2.2.2.1
  have hdur : (run (init d t0) evs).duration = d := run_duration _ _
  rw [hdur] at e2
  refine ⟨⟨e1, e2, ?_⟩, ?_, ?_⟩
  · intro p hp
    obtain ⟨hp1, hp2⟩ := e3 p hp
    rw [hdur] at hp2
    exact ⟨hp1, hp2⟩
  · intro s now hle
    simp only [step]
    rw [if_pos (show (tickTime s now).timeLeft ≤ 1 from hle)]
    exact ⟨rfl, doFinish_submitted_true _⟩
  · intro s now hgt
    simp only [step]
    rw [if_neg (show ¬(tickTime s now).timeLeft ≤ 1 from by
      simp only [tickTime]; omega)]
    simp [tickTime]

/-- Witness for C10: a session of 2 seconds ticked three times ends with
remaining time 0, one delivered payload, and timeSpent within [0, 2]. -/
theorem C10_time_bounds_witness :
    0 ≤ (run (init 2 10000) [.timerTick 11000, .timerTick 12000]).timeLeft ∧
    (run (init 2 10000) [.timerTick 11000, .timerTick 12000]).timeLeft ≤ 2 ∧
    (run (init 2 10000) [.timerTick 11000, .timerTick 12000]).timeLeft = 0 ∧
    ((run (init 2 10000) [.timerTick 11000, .timerTick 12000]).delivered.map
      (fun p => p.timeSpent)) = [1] := by
  obtain ⟨⟨h1, h2, _⟩, _, _⟩ :=
    C10_time_bounds 2 10000 [.timerTick 11000, .timerTick 12000]
      (by decide) (by decide) (by decide)
  exact ⟨h1, h2, by decide, by decide⟩

/-! ## C5: the TAB_SWITCH away-duration patch -/

/-- C5 (amended): on every reachable state, when visibility returns after
a hide at instant h0 and the measured away-duration now - h0 is positive,
the patch rewrites exactly one record: the most recent TAB_SWITCH record,
which is still unpatched (hence it is also the most recent unpatched one),
receives awayMs = now - h0 (a positive, hence non-negative, value); every
record before it and every record after it — all of other kinds — is left
exactly unchanged.  A cycle whose measured away-duration is 0 ms patches
no record (this is the correction: the original claim promised exactly one
patched record for every hide/show cycle). -/
theorem C5_tab_patch (s : St) (hreach : Reachable s) (now : Nat) (h0 : Nat)
    (hok : evOk s (.tabShow now) = true) (hh0 : s.tabHiddenAt = some h0)
    (hpos : 0 < now - h0) :
    ∃ pre r post,
      s.violations = pre ++ r :: post ∧
      r.type = .TAB_SWITCH ∧ r.awayMs = none ∧
      (∀ v ∈ post, v.type ≠ .TAB_SWITCH) ∧
      (step s (.tabShow now)).violations =
        pre ++ ({ r with awayMs := some (now - h0) }) :: post := by
  simp only [evOk, Bool.and_eq_true, decide_eq_true_eq] at hok
  obtain ⟨hle, hhid⟩ := hok
  have hInv := sysInv_reachable hreach
  obtain ⟨-, hltu⟩ := hInv.2.2.1 hhid
  obtain ⟨pre, r, post, hdec, hr1, hr2, hpost⟩ := hltu
  refine ⟨pre, r, post, hdec, hr1, hr2, hpost, ?_⟩
  simp only [step]
  split
  · rename_i heq
    simp only [tickTime] at heq
    rw [hh0] at heq
    cases heq
  · rename_i hh heq
    have hhh : h0 = hh := by
      simp only [tickTime] at heq
      rw [hh0] at heq
      exact Option.some_inj.mp heq
    subst hhh
    rw [if_neg (by omega)]
    show patchLastTabSwitch (now - h0) s.violations = _
    rw [hdec]
    exact patchLastTabSwitch_decomp (now - h0) pre r post hr1 hpost

/-- Witness for C5 at a concrete trace: hide at 20000, other violations in
between, show at 23000; the TAB_SWITCH record gets awayMs 3000 and the
later WINDOW_BLUR record is untouched. -/
theorem C5_tab_patch_witness :
    ∃ pre r post,
      (run (init 300 20000)
        [.tabHide 20000 none none,
         .simpleReport 21000 .WINDOW_BLUR none none none]).violations =
        pre ++ r :: post ∧
      r.type = .TAB_SWITCH ∧ r.awayMs = none ∧
      (∀ v ∈ post, v.type ≠ .TAB_SWITCH) ∧
      (step (run (init 300 20000)
        [.tabHide 20000 none none,
         .simpleReport 21000 .WINDOW_BLUR none none none])
        (.tabShow 23000)).violations =
        pre ++ ({ r with awayMs := some 3000 }) :: post := by
  have h := C5_tab_patch
    (run (init 300 20000)
      [.tabHide 20000 none none,
       .simpleReport 21000 .WINDOW_BLUR none none none])
    ⟨300, 20000,
      [.tabHide 20000 none none,
       .simpleReport 21000 .WINDOW_BLUR none none none],
      by decide, by decide, by decide, rfl⟩
    23000 20000 (by decide) (by decide) (by decide)
  exact h

/-- Counterexample to C5 as stated: a hide/show cycle measured at 0 ms
(hide and restore within the same millisecond) appends a TAB_SWITCH record
but patches nothing — the record's away-duration stays unset, refuting
that exactly one record is patched per hide/show cycle. -/
theorem C5_counterexample :
    validFrom (init 300 20000) [.tabHide 20000 none none, .tabShow 20000] = true ∧
    (run (init 300 20000) [.tabHide 20000 none none, .tabShow 20000]).violations.map
      (fun v => (v.type, v.awayMs)) = [(.TAB_SWITCH, none)] := by
  exact ⟨by decide, by decide⟩

/-! ## C4: the screen-share state machine -/

/-- C4 (amended): on every reachable state, (a) the first stop of the
tracked screen track (original listener armed) appends a
SCREEN_SHARE_STOPPED record, arms the 5-second countdown and delivers
nothing; (b) a re-share of the entire display cancels the countdown,
replaces the tracked source, re-arms the stop listener, and neither
delivers nor appends anything; (c) countdown expiry with no live
replacement track delivers exactly one payload; (d) a second stop — which
reaches the listener installed by the re-share — delivers exactly one
payload, never enters the countdown, and appends a SCREEN_SHARE_STOPPED
record exactly when 10 s have passed since the previous one (within the
cooldown the record is suppressed; the original claim promised the record
unconditionally); (e) a re-share of a partial surface (window or browser
tab) is rejected: apart from the observed wall-clock instant the state is
unchanged, in particular the tracked source is not replaced. -/
theorem C4_screen_share_machine (s : St) (hreach : Reachable s) (now : Nat)
    (capW capS : Option String) (hle : s.time ≤ now) :
    (s.screenLive = true → s.screenHandler = .original →
      countType (step s (.screenEnded now capW capS)).violations
          .SCREEN_SHARE_STOPPED =
        countType s.violations .SCREEN_SHARE_STOPPED + 1 ∧
      (step s (.screenEnded now capW capS)).countdownActive = some 5 ∧
      (step s (.screenEnded now capW capS)).delivered = s.delivered) ∧
    ((step s (.reshare now (some .monitor))).countdownActive = none ∧
     (step s (.reshare now (some .monitor))).screenLive = true ∧
     (step s (.reshare now (some .monitor))).screenHandler = .reshared ∧
     (step s (.reshare now (some .monitor))).delivered = s.delivered ∧
     (step s (.reshare now (some .monitor))).violations = s.violations) ∧
    (s.countdownActive = some 1 → s.screenLive = false → s.submitted = false →
      (step s (.countdownTick now)).delivered.length = 1 ∧
      (step s (.countdownTick now)).submitted = true) ∧
    (s.screenHandler = .reshared → s.submitted = false →
      (step s (.screenEnded now capW capS)).delivered.length = 1 ∧
      (step s (.screenEnded now capW capS)).submitted = true ∧
      (step s (.screenEnded now capW capS)).countdownActive = none ∧
      countType (step s (.screenEnded now capW capS)).violations
          .SCREEN_SHARE_STOPPED =
        countType s.violations .SCREEN_SHARE_STOPPED +
          (if (s.cooldown .SCREEN_SHARE_STOPPED).getD 0 + 10000 ≤ now
           then 1 else 0)) ∧
    ((step s (.reshare now (some .window))) = tickTime s now ∧
     (step s (.reshare now (some .browser))) = tickTime s now) := by
  have hInv := sysInv_reachable hreach
  have hA : 10000 ≤ s.time := hInv.1
  have hD := hInv.2.2.2.1
  refine ⟨?_, ?_, ?_, ?_, rfl, rfl⟩
  · intro hlive hsh
    obtain ⟨hc, hstop⟩ := hInv.2.2.2.2.2 hlive hsh
    simp only [step]
    split
    · rename_i heq
      rw [if_neg (show ¬((tickTime s now).screenStopCount + 1 ≥ 2) from by
        simp only [tickTime]
        omega)]
      refine ⟨?_, rfl, ?_⟩
      · apply countType_addViolation_fired
        intro hgg
        have hlt := hgg.2.2
        simp only [tickTime] at hlt
        rw [hc] at hlt
        simp only [Option.getD_none] at hlt
        omega
      · simp [av_delivered, tickTime]
    · rename_i heq
      have : s.screenHandler = .reshared := heq
      rw [this] at hsh
      cases hsh
  · exact ⟨rfl, rfl, rfl, rfl, rfl⟩
  · intro hcd hlive hsub
    simp only [step]
    split
    · rename_i heq
      have : s.countdownActive = none := heq
      rw [this] at hcd
      cases hcd
    · rename_i n heq
      have hn : n = 1 := by
        have : s.countdownActive = some n := heq
        rw [hcd] at this
        exact (Option.some_inj.mp this).symm
      subst hn
      rw [if_pos (show (1:Nat) - 1 = 0 from rfl)]
      rw [if_neg (show ¬(({ tickTime s now with countdownActive := none } : St).screenLive = true) from by
        simp [tickTime, hlive])]
      have hlen : s.delivered.length = 0 := by
        rw [hD.1, hsub]
        rfl
      constructor
      · simp [doFinish, tickTime, hsub, hlen]
      · exact doFinish_submitted_true _
  · intro hsh hsub
    simp only [step]
    split
    · rename_i heq
      have : s.screenHandler = .original := heq
      rw [this] at hsh
      cases hsh
    · rename_i heq
      have hlen : s.delivered.length = 0 := by
        rw [hD.1, hsub]
        rfl
      refine ⟨?_, doFinish_submitted_true _, ?_, ?_⟩
      · simp [doFinish, av_submitted, av_delivered, tickTime, hsub, hlen]
      · simp [doFinish, av_submitted, tickTime, hsub]
      · rw [show countType (doFinish (addViolation _ now .SCREEN_SHARE_STOPPED _ capW capS).1).violations .SCREEN_SHARE_STOPPED = countType (addViolation _ now .SCREEN_SHARE_STOPPED _ capW capS).1.violations .SCREEN_SHARE_STOPPED from by rw [doFinish_violations]]
        by_cases hgate : (s.cooldown .SCREEN_SHARE_STOPPED).getD 0 + 10000 ≤ now
        · rw [if_pos hgate]
          apply countType_addViolation_fired
          intro hgg
          have hlt := hgg.2.2
          simp only [tickTime] at hlt
          omega
        · rw [if_neg hgate]
          rw [addViolation_blocked
            (show avGate _ now .SCREEN_SHARE_STOPPED _ from
              ⟨rfl, by decide, by simp only [tickTime]; omega⟩)]
          simp [tickTime]

/-- Counterexample to C4 as stated: stop at 20000, full-display re-share
at 22000, second stop at 23000.  The second stop ends the exam (exactly
one delivery) but appends no SCREEN_SHARE_STOPPED record — the 10 s
cooldown suppresses it — so only one such record exists, refuting the
claim that a second stop at any time appends a record. -/
theorem C4_counterexample :
    validFrom (init 300 20000)
      [.screenEnded 20000 none none, .reshare 22000 (some .monitor),
       .screenEnded 23000 none none] = true ∧
    countType (run (init 300 20000)
      [.screenEnded 20000 none none, .reshare 22000 (some .monitor),
       .screenEnded 23000 none none]).violations .SCREEN_SHARE_STOPPED = 1 ∧
    (run (init 300 20000)
      [.screenEnded 20000 none none, .reshare 22000 (some .monitor),
       .screenEnded 23000 none none]).delivered.length = 1 ∧
    (run (init 300 20000)
      [.screenEnded 20000 none none, .reshare 22000 (some .monitor),
       .screenEnded 23000 none none]).submitted = true := by
  refine ⟨?_, ?_, ?_, ?_⟩ <;> decide

/-- Witness for C4: on the freshly mounted session the first stop appends
one SCREEN_SHARE_STOPPED record, arms the 5-second countdown and delivers
nothing. -/
theorem C4_screen_share_machine_witness :
    countType (step (init 300 20000) (.screenEnded 20000 none none)).violations
        .SCREEN_SHARE_STOPPED = 1 ∧
    (step (init 300 20000) (.screenEnded 20000 none none)).countdownActive =
      some 5 ∧
    (step (init 300 20000) (.screenEnded 20000 none none)).delivered = [] := by
  have h := (C4_screen_share_machine (init 300 20000)
    ⟨300, 20000, [], by decide, by decide, rfl, rfl⟩ 20000 none none
    (by decide)).1 rfl rfl
  exact ⟨by rw [h.1]; decide, h.2.1, h.2.2⟩

/-! ## Per-kind counting through each event (for C6 and C7) -/

theorem av_cooldown_at_ne {s : St} {now : Nat} {k : ViolationType} {o : AVOpts}
    {w c : Option String} {k' : ViolationType} (h : k' ≠ k) :
    (addViolation s now k o w c).1.cooldown k' = s.cooldown k' := by
  by_cases hg : avGate s now k o
  · rw [addViolation_blocked hg]
  · rw [av_cooldown_fired hg]
    by_cases hsk : o.skipCooldown
    · rw [if_pos hsk]
    · rw [if_neg hsk]
      simp [h]

@[simp] theorem doFinish_mismatchCount (s : St) :
    (doFinish s).mismatchCount = s.mismatchCount := by
  unfold doFinish; split <;> rfl

@[simp] theorem doFinish_gazeAwayStart (s : St) :
    (doFinish s).gazeAwayStart = s.gazeAwayStart := by
  unfold doFinish; split <;> rfl

theorem audioCheck_violations_preserved (s : St) (now : Nat) (avg : ℚ)
    (w : Option String) (k : ViolationType) (hk : k ≠ .NOISE_DETECTED) :
    countType (audioCheck s now avg w).violations k =
      countType s.violations k := by
  have hk2 : ¬(ViolationType.NOISE_DETECTED = k) := fun h => hk h.symm
  unfold audioCheck
  dsimp only
  repeat' split
  all_goals try rfl
  all_goals rw [countType_append]
  all_goals simp [hk2]

theorem audioCheck_mismatchCount (s : St) (now : Nat) (avg : ℚ)
    (w : Option String) :
    (audioCheck s now avg w).mismatchCount = s.mismatchCount := by
  unfold audioCheck
  dsimp only
  repeat' split
  all_goals rfl

theorem audioCheck_gazeAwayStart (s : St) (now : Nat) (avg : ℚ)
    (w : Option String) :
    (audioCheck s now avg w).gazeAwayStart = s.gazeAwayStart := by
  unfold audioCheck
  dsimp only
  repeat' split
  all_goals rfl

/-- Any event other than a face cycle leaves the counts of
IDENTITY_MISMATCH and GAZE_AWAY records unchanged (those kinds are only
reported from the face loop). -/
theorem countType_step_other (s : St) (e : Ev) (k' : ViolationType)
    (hok : evOk s e = true)
    (hns : k' ∉ simpleKinds) (hfs : k' ≠ .FULLSCREEN_EXIT)
    (hts : k' ≠ .TAB_SWITCH) (hss : k' ≠ .SCREEN_SHARE_STOPPED)
    (hnd : k' ≠ .NOISE_DETECTED) (had : k' ≠ .AUDIO_DETECTED)
    (hface : ∀ now obs w c, e ≠ .faceCycle now obs w c) :
    countType (step s e).violations k' = countType s.violations k' := by
  cases e with
  | simpleReport now k dt w c =>
    simp only [evOk, Bool.and_eq_true, decide_eq_true_eq] at hok
    simp only [step]
    exact countType_addViolation_ne (fun hkeq => hns (hkeq ▸ hok.2))
  | fullscreenExit now p w c =>
    simp only [step]
    cases p with
    | none => exact countType_addViolation_ne (Ne.symm hfs)
    | some u => exact countType_addViolation_ne (Ne.symm hfs)
  | tabHide now w c =>
    simp only [step]
    exact countType_addViolation_ne (Ne.symm hts)
  | tabShow now =>
    simp only [step]
    split
    · rfl
    · split
      · rfl
      · exact countType_patchLast _ _ _
  | screenEnded now w c =>
    simp only [step]
    split
    · split
      · rw [show countType (doFinish (addViolation _ now .SCREEN_SHARE_STOPPED _ w c).1).violations k' = countType (addViolation _ now .SCREEN_SHARE_STOPPED _ w c).1.violations k' from by rw [doFinish_violations]]
        exact countType_addViolation_ne (Ne.symm hss)
      · exact countType_addViolation_ne (Ne.symm hss)
    · rw [show countType (doFinish (addViolation _ now .SCREEN_SHARE_STOPPED _ w c).1).violations k' = countType (addViolation _ now .SCREEN_SHARE_STOPPED _ w c).1.violations k' from by rw [doFinish_violations]]
      exact countType_addViolation_ne (Ne.symm hss)
  | countdownTick now =>
    simp only [step]
    split
    · rfl
    · split
      · split
        · rfl
        · rw [doFinish_violations]
          rfl
      · rfl
  | reshare now surface =>
    simp only [step]
    split <;> rfl
  | audioSample now avg w =>
    simp only [step]
    exact audioCheck_violations_preserved _ _ _ _ _ hnd
  | recorderDone now so co cd lvl w c =>
    simp only [step]
    split
    · split
      · rw [show countType (addViolation _ now .AUDIO_DETECTED _ w c).1.violations k' = countType ((({ tickTime s now with saving := false } : St)).violations.map (fun v => if some v.id = ({ tickTime s now with saving := false } : St).pendingNoiseId then { v with audioUrl := some cd } else v)) k' from countType_addViolation_ne (Ne.symm had)]
        exact countType_map_pres (fun v => by
          by_cases hv : some v.id = ({ tickTime s now with saving := false } : St).pendingNoiseId <;> simp [hv]) _ _
      · exact countType_map_pres (fun v => by
          by_cases hv : some v.id = ({ tickTime s now with saving := false } : St).pendingNoiseId <;> simp [hv]) _ _
    · rfl
  | faceCycle now obs w c => exact absurd rfl (hface now obs w c)
  | timerTick now =>
    simp only [step]
    split
    · rw [show countType ({ doFinish (tickTime s now) with timeLeft := 0 } : St).violations k' = countType (doFinish (tickTime s now)).violations k' from rfl]
      rw [doFinish_violations]
      rfl
    · rfl
  | confirmSubmit now =>
    simp only [step]
    rw [doFinish_violations]
    rfl
  | periodicCapture now w c =>
    simp only [step]
    cases w <;> cases c <;> rfl

/-! ## The face-loop characterisations -/

theorem av_cooldown_skip {s : St} {now : Nat} {k : ViolationType} {o : AVOpts}
    {w c : Option String} (h : o.skipCooldown = true) :
    (addViolation s now k o w c).1.cooldown = s.cooldown := by
  by_cases hg : avGate s now k o
  · rw [addViolation_blocked hg]
  · rw [av_cooldown_fired hg, if_pos h]

theorem countType_addViolation_skip {s : St} {now : Nat} {k : ViolationType}
    {o : AVOpts} {w c : Option String} (h : o.skipCooldown = true) :
    countType (addViolation s now k o w c).1.violations k =
      countType s.violations k + 1 :=
  countType_addViolation_fired (fun hg => Bool.noConfusion (hg.1 ▸ h))

theorem countType_addViolation_self {s : St} {now : Nat} {k : ViolationType}
    {o : AVOpts} {w c : Option String} (hsk : o.skipCooldown = false)
    (hk : k ≠ .TAB_SWITCH) :
    countType (addViolation s now k o w c).1.violations k =
      countType s.violations k +
        (if (s.cooldown k).getD 0 + 10000 ≤ now then 1 else 0) := by
  by_cases hg : avGate s now k o
  · rw [addViolation_blocked hg]
    have h3 := hg.2.2
    rw [if_neg (by omega)]
    rfl
  · have hle : (s.cooldown k).getD 0 + 10000 ≤ now := by
      by_contra hlt
      exact hg ⟨hsk, hk, by omega⟩
    rw [countType_addViolation_fired hg, if_pos hle]

/-- How one face cycle transforms the identity-mismatch counter. -/
theorem faceCycle_mismatchCount (t : St) (now : Nat) (obs : FaceObs)
    (w c : Option String) :
    (faceCycle t now obs w c).mismatchCount =
      match obs with
      | .detectFail => t.mismatchCount
      | .faces0 => 0
      | .facesMany => 0
      | .face1 _ none => 0
      | .face1 _ (some v) =>
        if v < mkRat 72 100 then
          if t.mismatchCount + 1 ≥ 3 then 0 else t.mismatchCount + 1
        else 0 := by
  cases obs with
  | detectFail => rfl
  | faces0 =>
    simp only [faceCycle]
    split <;> simp
  | facesMany =>
    simp only [faceCycle]
    split <;> simp
  | face1 pose sim =>
    rcases pose with _ | ⟨yaw, pitch⟩ <;> rcases sim with _ | v <;>
      simp only [faceCycle] <;> (try dsimp only) <;> repeat' split
    all_goals simp_all

/-- How one face cycle transforms the IDENTITY_MISMATCH record count: a new
record appears exactly when a single face scores below 0.72 on the third
consecutive cycle, with no cooldown interference. -/
theorem faceCycle_countIDM (t : St) (now : Nat) (obs : FaceObs)
    (w c : Option String) :
    countType (faceCycle t now obs w c).violations .IDENTITY_MISMATCH =
      countType t.violations .IDENTITY_MISMATCH +
      match obs with
      | .face1 _ (some v) =>
        if v < mkRat 72 100 ∧ t.mismatchCount + 1 ≥ 3 then 1 else 0
      | _ => 0 := by
  cases obs with
  | detectFail => rfl
  | faces0 =>
    simp only [faceCycle]
    split <;> simp [countType_addViolation_ne]
  | facesMany =>
    simp only [faceCycle]
    split <;> simp [countType_addViolation_ne]
  | face1 pose sim =>
    rcases pose with _ | ⟨yaw, pitch⟩ <;> rcases sim with _ | v <;>
      simp only [faceCycle] <;> (try dsimp only) <;> repeat' split
    all_goals simp_all [countType_addViolation_ne, countType_addViolation_skip]

/-- A face cycle never touches the IDENTITY_MISMATCH slot of the cooldown
table: NO_FACE, MULTIPLE_FACES and GAZE_AWAY reports stamp their own slots,
and the IDENTITY_MISMATCH report bypasses the stamp. -/
theorem faceCycle_cooldownIDM (t : St) (now : Nat) (obs : FaceObs)
    (w c : Option String) :
    (faceCycle t now obs w c).cooldown .IDENTITY_MISMATCH =
      t.cooldown .IDENTITY_MISMATCH := by
  cases obs with
  | detectFail => rfl
  | faces0 =>
    simp only [faceCycle]
    split <;> simp [av_cooldown_at_ne]
  | facesMany =>
    simp only [faceCycle]
    split <;> simp [av_cooldown_at_ne]
  | face1 pose sim =>
    rcases pose with _ | ⟨yaw, pitch⟩ <;> rcases sim with _ | v <;>
      simp only [faceCycle] <;> (try dsimp only) <;> repeat' split
    all_goals simp_all [av_cooldown_at_ne, av_cooldown_skip]

/-- How one face cycle transforms the gaze-away timer: a zero- or multi-face
cycle and a non-deviating pose clear it, a deviating pose starts or continues
it, and a firing cycle restarts it at the current instant. -/
theorem faceCycle_gazeAwayStart (t : St) (now : Nat) (obs : FaceObs)
    (w c : Option String) :
    (faceCycle t now obs w c).gazeAwayStart =
      match obs with
      | .detectFail => t.gazeAwayStart
      | .faces0 => none
      | .facesMany => none
      | .face1 none _ => t.gazeAwayStart
      | .face1 (some (yaw, pitch)) _ =>
        if 25 < |yaw| ∨ 30 < |pitch| then
          if 1500 ≤ now - t.gazeAwayStart.getD now then some now
          else some (t.gazeAwayStart.getD now)
        else none := by
  cases obs with
  | detectFail => rfl
  | faces0 =>
    simp only [faceCycle]
    split <;> simp
  | facesMany =>
    simp only [faceCycle]
    split <;> simp
  | face1 pose sim =>
    rcases pose with _ | ⟨yaw, pitch⟩ <;> rcases sim with _ | v <;>
      simp only [faceCycle] <;> (try dsimp only) <;> repeat' split
    all_goals simp_all

/-- How one face cycle transforms the GAZE_AWAY record count: a new record
appears exactly when a single deviating face has been deviating for at
least 1500 ms and the 10 s GAZE_AWAY cooldown has lapsed. -/
theorem faceCycle_countGA (t : St) (now : Nat) (obs : FaceObs)
    (w c : Option String) :
    countType (faceCycle t now obs w c).violations .GAZE_AWAY =
      countType t.violations .GAZE_AWAY +
      match obs with
      | .face1 (some (yaw, pitch)) _ =>
        if (25 < |yaw| ∨ 30 < |pitch|) ∧ 1500 ≤ now - t.gazeAwayStart.getD now ∧
            (t.cooldown .GAZE_AWAY).getD 0 + 10000 ≤ now then 1 else 0
      | _ => 0 := by
  cases obs with
  | detectFail => rfl
  | faces0 =>
    simp only [faceCycle]
    split <;> simp [countType_addViolation_ne]
  | facesMany =>
    simp only [faceCycle]
    split <;> simp [countType_addViolation_ne]
  | face1 pose sim =>
    rcases pose with _ | ⟨yaw, pitch⟩ <;> rcases sim with _ | v <;>
      simp only [faceCycle] <;> (try dsimp only) <;> repeat' split
    all_goals simp_all [countType_addViolation_ne, countType_addViolation_skip,
      countType_addViolation_self (k := ViolationType.GAZE_AWAY)]

/-- Any event other than a face cycle leaves the identity-mismatch counter
unchanged. -/
theorem step_mismatchCount_other (s : St) (e : Ev)
    (hface : ∀ now obs w c, e ≠ .faceCycle now obs w c) :
    (step s e).mismatchCount = s.mismatchCount := by
  cases e
  case faceCycle now obs w c => exact absurd rfl (hface now obs w c)
  all_goals simp only [step]
  all_goals (try (repeat' split))
  all_goals simp_all [tickTime, logCapture, audioCheck_mismatchCount]

/-- The identity-mismatch counter never exceeds 2: the third strike fires
and resets it. -/
theorem mismatchCount_le_step (s : St) (e : Ev) (h : s.mismatchCount ≤ 2) :
    (step s e).mismatchCount ≤ 2 := by
  by_cases hf : ∀ now obs w c, e ≠ Ev.faceCycle now obs w c
  · rw [step_mismatchCount_other s e hf]; exact h
  · push_neg at hf
    obtain ⟨now, obs, w, c, rfl⟩ := hf
    show (faceCycle (tickTime s now) now obs w c).mismatchCount ≤ 2
    rw [faceCycle_mismatchCount]
    simp only [tickTime]
    cases obs with
    | detectFail => exact h
    | faces0 => simp
    | facesMany => simp
    | face1 pose sim =>
      rcases sim with _ | v
      · simp
      · dsimp only
        split
        · split <;> omega
        · omega

theorem mismatchCount_run_le {s : St} (evs : List Ev) (h : s.mismatchCount ≤ 2) :
    (run s evs).mismatchCount ≤ 2 := by
  induction evs generalizing s with
  | nil => exact h
  | cons e rest ih => exact ih (mismatchCount_le_step s e h)

theorem reachable_mismatchCount_le {s : St} (h : Reachable s) :
    s.mismatchCount ≤ 2 := by
  obtain ⟨d, t0, evs, _, _, _, rfl⟩ := h
  exact mismatchCount_run_le evs (by simp [init])

/-- A low-similarity cycle before the third strike: no record, counter
advances. -/
theorem faceLow_step (u : St) (n : Nat) (p : Option (ℚ × ℚ)) (v : ℚ)
    (w c : Option String) (hv : v < mkRat 72 100) (hlt : u.mismatchCount < 2) :
    countType (step u (.faceCycle n (.face1 p (some v)) w c)).violations
        .IDENTITY_MISMATCH = countType u.violations .IDENTITY_MISMATCH ∧
    (step u (.faceCycle n (.face1 p (some v)) w c)).mismatchCount =
      u.mismatchCount + 1 := by
  constructor
  · show countType (faceCycle (tickTime u n) n (.face1 p (some v)) w c).violations
        .IDENTITY_MISMATCH = _
    rw [faceCycle_countIDM]
    simp only [tickTime]
    rw [if_neg (fun hc => absurd hc.2 (by omega))]
    rfl
  · show (faceCycle (tickTime u n) n (.face1 p (some v)) w c).mismatchCount = _
    rw [faceCycle_mismatchCount]
    simp only [tickTime]
    rw [if_pos hv, if_neg (by omega)]

/-- A passing cycle: no record, counter resets. -/
theorem facePass_step (u : St) (n : Nat) (p : Option (ℚ × ℚ)) (v : ℚ)
    (w c : Option String) (hv : ¬v < mkRat 72 100) :
    countType (step u (.faceCycle n (.face1 p (some v)) w c)).violations
        .IDENTITY_MISMATCH = countType u.violations .IDENTITY_MISMATCH ∧
    (step u (.faceCycle n (.face1 p (some v)) w c)).mismatchCount = 0 := by
  constructor
  · show countType (faceCycle (tickTime u n) n (.face1 p (some v)) w c).violations
        .IDENTITY_MISMATCH = _
    rw [faceCycle_countIDM]
    simp only [tickTime]
    rw [if_neg (fun hc => hv hc.1)]
    rfl
  · show (faceCycle (tickTime u n) n (.face1 p (some v)) w c).mismatchCount = _
    rw [faceCycle_mismatchCount]
    simp only [tickTime]
    rw [if_neg hv]

/-- The third consecutive low-similarity cycle: exactly one record, counter
resets, the IDENTITY_MISMATCH cooldown slot is untouched. -/
theorem faceThird_step (u : St) (n : Nat) (p : Option (ℚ × ℚ)) (v : ℚ)
    (w c : Option String) (hv : v < mkRat 72 100) (h2 : 2 ≤ u.mismatchCount) :
    countType (step u (.faceCycle n (.face1 p (some v)) w c)).violations
        .IDENTITY_MISMATCH = countType u.violations .IDENTITY_MISMATCH + 1 ∧
    (step u (.faceCycle n (.face1 p (some v)) w c)).mismatchCount = 0 ∧
    (step u (.faceCycle n (.face1 p (some v)) w c)).cooldown .IDENTITY_MISMATCH =
      u.cooldown .IDENTITY_MISMATCH := by
  refine ⟨?_, ?_, ?_⟩
  · show countType (faceCycle (tickTime u n) n (.face1 p (some v)) w c).violations
        .IDENTITY_MISMATCH = _
    rw [faceCycle_countIDM]
    simp only [tickTime]
    rw [if_pos ⟨hv, by omega⟩]
  · show (faceCycle (tickTime u n) n (.face1 p (some v)) w c).mismatchCount = _
    rw [faceCycle_mismatchCount]
    simp only [tickTime]
    rw [if_pos hv, if_pos (by omega)]
  · show (faceCycle (tickTime u n) n (.face1 p (some v)) w c).cooldown
        .IDENTITY_MISMATCH = _
    rw [faceCycle_cooldownIDM]
    rfl

/-- C6: the identity check of the face loop.  Calling a similarity score v
low when v < 0.72: (i) a single-face cycle scoring low with the counter at
2 (the third consecutive low cycle) appends exactly one IDENTITY_MISMATCH
record, resets the counter, and — the report bypassing the cooldown —
leaves the IDENTITY_MISMATCH cooldown slot untouched; (ii) a low cycle
with the counter below 2 appends nothing and advances the counter; (iii) a
cycle scoring at or above 0.72 appends nothing and resets the counter;
(iv) on a reachable state any admissible event that changes the
IDENTITY_MISMATCH count is a single-face cycle scoring low with the
counter at 2, and it appends exactly one record; (v) hence two consecutive
low cycles followed by a passing one append no IDENTITY_MISMATCH record. -/
theorem C6_identity_mismatch (s : St) (now : Nat) (pose : Option (ℚ × ℚ))
    (w c : Option String) :
    (∀ v : ℚ, v < mkRat 72 100 → s.mismatchCount = 2 →
      countType (step s (.faceCycle now (.face1 pose (some v)) w c)).violations
          .IDENTITY_MISMATCH = countType s.violations .IDENTITY_MISMATCH + 1 ∧
      (step s (.faceCycle now (.face1 pose (some v)) w c)).mismatchCount = 0 ∧
      (step s (.faceCycle now (.face1 pose (some v)) w c)).cooldown
          .IDENTITY_MISMATCH = s.cooldown .IDENTITY_MISMATCH) ∧
    (∀ v : ℚ, v < mkRat 72 100 → s.mismatchCount < 2 →
      countType (step s (.faceCycle now (.face1 pose (some v)) w c)).violations
          .IDENTITY_MISMATCH = countType s.violations .IDENTITY_MISMATCH ∧
      (step s (.faceCycle now (.face1 pose (some v)) w c)).mismatchCount =
        s.mismatchCount + 1) ∧
    (∀ v : ℚ, ¬v < mkRat 72 100 →
      countType (step s (.faceCycle now (.face1 pose (some v)) w c)).violations
          .IDENTITY_MISMATCH = countType s.violations .IDENTITY_MISMATCH ∧
      (step s (.faceCycle now (.face1 pose (some v)) w c)).mismatchCount = 0) ∧
    (∀ e : Ev, Reachable s → evOk s e = true →
      countType (step s e).violations .IDENTITY_MISMATCH ≠
        countType s.violations .IDENTITY_MISMATCH →
      ∃ (n : Nat) (p : Option (ℚ × ℚ)) (v : ℚ) (w2 c2 : Option String),
        e = .faceCycle n (.face1 p (some v)) w2 c2 ∧ v < mkRat 72 100 ∧
        s.mismatchCount = 2 ∧
        countType (step s e).violations .IDENTITY_MISMATCH =
          countType s.violations .IDENTITY_MISMATCH + 1) ∧
    (∀ (v1 v2 v3 : ℚ) (n1 n2 n3 : Nat) (p1 p2 p3 : Option (ℚ × ℚ)),
      s.mismatchCount = 0 → v1 < mkRat 72 100 → v2 < mkRat 72 100 → ¬v3 < mkRat 72 100 →
      countType (run s [.faceCycle n1 (.face1 p1 (some v1)) w c,
                        .faceCycle n2 (.face1 p2 (some v2)) w c,
                        .faceCycle n3 (.face1 p3 (some v3)) w c]).violations
          .IDENTITY_MISMATCH = countType s.violations .IDENTITY_MISMATCH) := by
  refine ⟨?_, ?_, ?_, ?_, ?_⟩
  · intro v hv h2
    have h3 := faceThird_step s now pose v w c hv (by omega)
    exact ⟨h3.1, h3.2.1, h3.2.2⟩
  · intro v hv hlt
    exact faceLow_step s now pose v w c hv hlt
  · intro v hv
    exact facePass_step s now pose v w c hv
  · intro e hreach hok hne
    have hb := reachable_mismatchCount_le hreach
    by_cases hf : ∀ n obs w2 c2, e ≠ Ev.faceCycle n obs w2 c2
    · exact absurd (countType_step_other s e .IDENTITY_MISMATCH hok (by decide)
        (by decide) (by decide) (by decide) (by decide) (by decide) hf) hne
    · push_neg at hf
      obtain ⟨n, obs, w2, c2, rfl⟩ := hf
      cases obs with
      | detectFail =>
        refine absurd ?_ hne
        show countType (faceCycle (tickTime s n) n .detectFail w2 c2).violations
            .IDENTITY_MISMATCH = _
        rw [faceCycle_countIDM]
        rfl
      | faces0 =>
        refine absurd ?_ hne
        show countType (faceCycle (tickTime s n) n .faces0 w2 c2).violations
            .IDENTITY_MISMATCH = _
        rw [faceCycle_countIDM]
        rfl
      | facesMany =>
        refine absurd ?_ hne
        show countType (faceCycle (tickTime s n) n .facesMany w2 c2).violations
            .IDENTITY_MISMATCH = _
        rw [faceCycle_countIDM]
        rfl
      | face1 p simv =>
        rcases simv with _ | v
        · refine absurd ?_ hne
          show countType (faceCycle (tickTime s n) n (.face1 p none) w2 c2).violations
              .IDENTITY_MISMATCH = _
          rw [faceCycle_countIDM]
          rfl
        · by_cases hv : v < mkRat 72 100
          · by_cases hm : 2 ≤ s.mismatchCount
            · exact ⟨n, p, v, w2, c2, rfl, hv, by omega,
                (faceThird_step s n p v w2 c2 hv hm).1⟩
            · exact absurd (faceLow_step s n p v w2 c2 hv (by omega)).1 hne
          · exact absurd (facePass_step s n p v w2 c2 hv).1 hne
  · intro v1 v2 v3 n1 n2 n3 p1 p2 p3 h0 h1 h2 h3
    have k1 := faceLow_step s n1 p1 v1 w c h1 (by omega)
    have k2 := faceLow_step (step s (.faceCycle n1 (.face1 p1 (some v1)) w c))
      n2 p2 v2 w c h2 (by omega)
    have k3 := facePass_step
      (step (step s (.faceCycle n1 (.face1 p1 (some v1)) w c))
        (.faceCycle n2 (.face1 p2 (some v2)) w c)) n3 p3 v3 w c h3
    show countType (step (step (step s (.faceCycle n1 (.face1 p1 (some v1)) w c))
        (.faceCycle n2 (.face1 p2 (some v2)) w c))
        (.faceCycle n3 (.face1 p3 (some v3)) w c)).violations
        .IDENTITY_MISMATCH = _
    omega

theorem C6_identity_mismatch_witness :
    (mkRat 1 2 < mkRat 72 100 ∧
      (run (init 300 20000)
        [.faceCycle 20001 (.face1 none (some (mkRat 1 2))) none none,
         .faceCycle 20002 (.face1 none (some (mkRat 1 2))) none none]).mismatchCount
        = 2) ∧
    countType (step (run (init 300 20000)
        [.faceCycle 20001 (.face1 none (some (mkRat 1 2))) none none,
         .faceCycle 20002 (.face1 none (some (mkRat 1 2))) none none])
        (.faceCycle 20003 (.face1 none (some (mkRat 1 2))) none none)).violations
        .IDENTITY_MISMATCH =
      countType (run (init 300 20000)
        [.faceCycle 20001 (.face1 none (some (mkRat 1 2))) none none,
         .faceCycle 20002 (.face1 none (some (mkRat 1 2))) none none]).violations
        .IDENTITY_MISMATCH + 1 := by
  refine ⟨⟨by decide, by decide⟩, ?_⟩
  exact ((C6_identity_mismatch (run (init 300 20000)
      [.faceCycle 20001 (.face1 none (some (mkRat 1 2))) none none,
       .faceCycle 20002 (.face1 none (some (mkRat 1 2))) none none])
      20003 none none none).1 (mkRat 1 2) (by decide) (by decide)).1

/-- C7: the gaze monitor of the face loop.  Writing deviating for
25 < |yaw| or 30 < |pitch|: (a) any admissible event that changes the
GAZE_AWAY count is a single-face cycle with a deviating pose whose gaze
timer was started at least 1500 ms earlier, and it appends exactly one
record; (b) a zero-face or multi-face cycle clears the gaze timer and
appends nothing; (c) a non-deviating single-face cycle (looking back)
clears the timer and appends nothing; (d) a deviating cycle with the timer
clear starts it at the current instant and appends nothing; (e) a
deviating cycle less than 1500 ms after the timer started keeps the timer
and appends nothing; (f) a deviating cycle at least 1500 ms after the
timer started, with the 10 s GAZE_AWAY cooldown lapsed, appends exactly
one record and restarts the timer at the current instant. -/
theorem C7_gaze_away (s : St) (now : Nat) (w c : Option String) :
    (∀ e : Ev, evOk s e = true →
      countType (step s e).violations .GAZE_AWAY ≠
        countType s.violations .GAZE_AWAY →
      ∃ (n : Nat) (yaw pitch : ℚ) (sv : Option ℚ) (w2 c2 : Option String),
        e = .faceCycle n (.face1 (some (yaw, pitch)) sv) w2 c2 ∧
        (25 < |yaw| ∨ 30 < |pitch|) ∧
        ∃ t0, s.gazeAwayStart = some t0 ∧ t0 + 1500 ≤ n ∧
          countType (step s e).violations .GAZE_AWAY =
            countType s.violations .GAZE_AWAY + 1) ∧
    (∀ obs, obs = FaceObs.faces0 ∨ obs = FaceObs.facesMany →
      (step s (.faceCycle now obs w c)).gazeAwayStart = none ∧
      countType (step s (.faceCycle now obs w c)).violations .GAZE_AWAY =
        countType s.violations .GAZE_AWAY) ∧
    (∀ (yaw pitch : ℚ) (sv : Option ℚ), ¬(25 < |yaw| ∨ 30 < |pitch|) →
      (step s (.faceCycle now (.face1 (some (yaw, pitch)) sv) w c)).gazeAwayStart
        = none ∧
      countType (step s (.faceCycle now (.face1 (some (yaw, pitch)) sv) w c)).violations
        .GAZE_AWAY = countType s.violations .GAZE_AWAY) ∧
    (∀ (yaw pitch : ℚ) (sv : Option ℚ), (25 < |yaw| ∨ 30 < |pitch|) →
      s.gazeAwayStart = none →
      (step s (.faceCycle now (.face1 (some (yaw, pitch)) sv) w c)).gazeAwayStart
        = some now ∧
      countType (step s (.faceCycle now (.face1 (some (yaw, pitch)) sv) w c)).violations
        .GAZE_AWAY = countType s.violations .GAZE_AWAY) ∧
    (∀ (yaw pitch : ℚ) (sv : Option ℚ) (t0 : Nat), (25 < |yaw| ∨ 30 < |pitch|) →
      s.gazeAwayStart = some t0 → now - t0 < 1500 →
      (step s (.faceCycle now (.face1 (some (yaw, pitch)) sv) w c)).gazeAwayStart
        = some t0 ∧
      countType (step s (.faceCycle now (.face1 (some (yaw, pitch)) sv) w c)).violations
        .GAZE_AWAY = countType s.violations .GAZE_AWAY) ∧
    (∀ (yaw pitch : ℚ) (sv : Option ℚ) (t0 : Nat), (25 < |yaw| ∨ 30 < |pitch|) →
      s.gazeAwayStart = some t0 → t0 + 1500 ≤ now →
      (s.cooldown .GAZE_AWAY).getD 0 + 10000 ≤ now →
      countType (step s (.faceCycle now (.face1 (some (yaw, pitch)) sv) w c)).violations
        .GAZE_AWAY = countType s.violations .GAZE_AWAY + 1 ∧
      (step s (.faceCycle now (.face1 (some (yaw, pitch)) sv) w c)).gazeAwayStart
        = some now) := by
  refine ⟨?_, ?_, ?_, ?_, ?_, ?_⟩
  · intro e hok hne
    by_cases hf : ∀ n obs w2 c2, e ≠ Ev.faceCycle n obs w2 c2
    · exact absurd (countType_step_other s e .GAZE_AWAY hok (by decide)
        (by decide) (by decide) (by decide) (by decide) (by decide) hf) hne
    · push_neg at hf
      obtain ⟨n, obs, w2, c2, rfl⟩ := hf
      cases obs with
      | detectFail =>
        refine absurd ?_ hne
        show countType (faceCycle (tickTime s n) n .detectFail w2 c2).violations
            .GAZE_AWAY = _
        rw [faceCycle_countGA]
        rfl
      | faces0 =>
        refine absurd ?_ hne
        show countType (faceCycle (tickTime s n) n .faces0 w2 c2).violations
            .GAZE_AWAY = _
        rw [faceCycle_countGA]
        rfl
      | facesMany =>
        refine absurd ?_ hne
        show countType (faceCycle (tickTime s n) n .facesMany w2 c2).violations
            .GAZE_AWAY = _
        rw [faceCycle_countGA]
        rfl
      | face1 p sv =>
        rcases p with _ | ⟨yaw, pitch⟩
        · refine absurd ?_ hne
          show countType (faceCycle (tickTime s n) n (.face1 none sv) w2 c2).violations
              .GAZE_AWAY = _
          rw [faceCycle_countGA]
          rfl
        · have hcount : countType
              (step s (.faceCycle n (.face1 (some (yaw, pitch)) sv) w2 c2)).violations
                .GAZE_AWAY =
              countType s.violations .GAZE_AWAY +
              (if (25 < |yaw| ∨ 30 < |pitch|) ∧
                  1500 ≤ n - s.gazeAwayStart.getD n ∧
                  (s.cooldown .GAZE_AWAY).getD 0 + 10000 ≤ n then 1 else 0) := by
            show countType
              (faceCycle (tickTime s n) n (.face1 (some (yaw, pitch)) sv) w2 c2).violations
                .GAZE_AWAY = _
            rw [faceCycle_countGA]
            rfl
          by_cases hcond : (25 < |yaw| ∨ 30 < |pitch|) ∧
              1500 ≤ n - s.gazeAwayStart.getD n ∧
              (s.cooldown .GAZE_AWAY).getD 0 + 10000 ≤ n
          · rcases hgs : s.gazeAwayStart with _ | t0
            · rw [hgs] at hcond
              simp at hcond
            · have h15 := hcond.2.1
              rw [hgs] at h15
              simp only [Option.getD_some] at h15
              exact ⟨n, yaw, pitch, sv, w2, c2, rfl, hcond.1, t0, rfl, by omega,
                by rw [hcount, if_pos hcond]⟩
          · rw [hcount, if_neg hcond] at hne
            simp at hne
  · intro obs hobs
    rcases hobs with rfl | rfl
    · constructor
      · show (faceCycle (tickTime s now) now .faces0 w c).gazeAwayStart = none
        rw [faceCycle_gazeAwayStart]
      · show countType (faceCycle (tickTime s now) now .faces0 w c).violations
            .GAZE_AWAY = _
        rw [faceCycle_countGA]
        rfl
    · constructor
      · show (faceCycle (tickTime s now) now .facesMany w c).gazeAwayStart = none
        rw [faceCycle_gazeAwayStart]
      · show countType (faceCycle (tickTime s now) now .facesMany w c).violations
            .GAZE_AWAY = _
        rw [faceCycle_countGA]
        rfl
  · intro yaw pitch sv hdev
    constructor
    · show (faceCycle (tickTime s now) now (.face1 (some (yaw, pitch)) sv) w c).gazeAwayStart
          = none
      rw [faceCycle_gazeAwayStart]
      dsimp only
      rw [if_neg hdev]
    · show countType
          (faceCycle (tickTime s now) now (.face1 (some (yaw, pitch)) sv) w c).violations
            .GAZE_AWAY = _
      rw [faceCycle_countGA]
      dsimp only
      rw [if_neg (fun hc => hdev hc.1)]
      rfl
  · intro yaw pitch sv hdev hgs
    have hg2 : (tickTime s now).gazeAwayStart = none := hgs
    constructor
    · show (faceCycle (tickTime s now) now (.face1 (some (yaw, pitch)) sv) w c).gazeAwayStart
          = some now
      rw [faceCycle_gazeAwayStart]
      dsimp only
      rw [if_pos hdev, hg2]
      simp
    · show countType
          (faceCycle (tickTime s now) now (.face1 (some (yaw, pitch)) sv) w c).violations
            .GAZE_AWAY = _
      rw [faceCycle_countGA]
      dsimp only
      rw [hg2]
      simp
      rfl
  · intro yaw pitch sv t0 hdev hgs hlt
    have hg2 : (tickTime s now).gazeAwayStart = some t0 := hgs
    constructor
    · show (faceCycle (tickTime s now) now (.face1 (some (yaw, pitch)) sv) w c).gazeAwayStart
          = some t0
      rw [faceCycle_gazeAwayStart]
      dsimp only
      rw [if_pos hdev, hg2]
      simp only [Option.getD_some]
      rw [if_neg (by omega)]
    · show countType
          (faceCycle (tickTime s now) now (.face1 (some (yaw, pitch)) sv) w c).violations
            .GAZE_AWAY = _
      rw [faceCycle_countGA]
      dsimp only
      rw [hg2]
      simp only [Option.getD_some]
      rw [if_neg (fun hc => absurd hc.2.1 (by omega))]
      rfl
  · intro yaw pitch sv t0 hdev hgs h15 hcd
    have hg2 : (tickTime s now).gazeAwayStart = some t0 := hgs
    have hcd2 : ((tickTime s now).cooldown .GAZE_AWAY).getD 0 + 10000 ≤ now := hcd
    constructor
    · show countType
          (faceCycle (tickTime s now) now (.face1 (some (yaw, pitch)) sv) w c).violations
            .GAZE_AWAY = _
      rw [faceCycle_countGA]
      dsimp only
      rw [hg2]
      simp only [Option.getD_some]
      rw [if_pos ⟨hdev, by omega, hcd2⟩]
      rfl
    · show (faceCycle (tickTime s now) now (.face1 (some (yaw, pitch)) sv) w c).gazeAwayStart
          = some now
      rw [faceCycle_gazeAwayStart]
      dsimp only
      rw [if_pos hdev, hg2]
      simp only [Option.getD_some]
      rw [if_pos (by omega)]

theorem C7_gaze_away_witness :
    ((25 : ℚ) < |(30 : ℚ)| ∨ (30 : ℚ) < |(0 : ℚ)|) ∧
    (init 300 20000).gazeAwayStart = none ∧
    (step (init 300 20000)
        (.faceCycle 20001 (.face1 (some (30, 0)) none) none none)).gazeAwayStart
      = some 20001 ∧
    countType (step (init 300 20000)
        (.faceCycle 20001 (.face1 (some (30, 0)) none) none none)).violations
        .GAZE_AWAY = countType (init 300 20000).violations .GAZE_AWAY := by
  refine ⟨by decide, rfl, ?_⟩
  have h := (C7_gaze_away (init 300 20000) 20001 none none).2.2.2.1 30 0 none
    (by decide) rfl
  exact ⟨h.1, h.2⟩

/-! ## C8: the audio monitor -/

@[simp] theorem doFinish_calSamples (s : St) :
    (doFinish s).calSamples = s.calSamples := by
  unfold doFinish; split <;> rfl

@[simp] theorem doFinish_calibrated (s : St) :
    (doFinish s).calibrated = s.calibrated := by
  unfold doFinish; split <;> rfl

theorem faceCycle_calibrated (t : St) (now : Nat) (obs : FaceObs)
    (w c : Option String) :
    (faceCycle t now obs w c).calibrated = t.calibrated := by
  cases obs with
  | detectFail => rfl
  | faces0 =>
    simp only [faceCycle]
    split <;> simp
  | facesMany =>
    simp only [faceCycle]
    split <;> simp
  | face1 pose sim =>
    rcases pose with _ | ⟨yaw, pitch⟩ <;> rcases sim with _ | v <;>
      simp only [faceCycle] <;> (try dsimp only) <;> repeat' split
    all_goals simp_all

theorem faceCycle_calSamples (t : St) (now : Nat) (obs : FaceObs)
    (w c : Option String) :
    (faceCycle t now obs w c).calSamples = t.calSamples := by
  cases obs with
  | detectFail => rfl
  | faces0 =>
    simp only [faceCycle]
    split <;> simp
  | facesMany =>
    simp only [faceCycle]
    split <;> simp
  | face1 pose sim =>
    rcases pose with _ | ⟨yaw, pitch⟩ <;> rcases sim with _ | v <;>
      simp only [faceCycle] <;> (try dsimp only) <;> repeat' split
    all_goals simp_all

/-- Any event other than an audio sample leaves the calibration window and
flag unchanged. -/
theorem step_cal_other (s : St) (e : Ev)
    (ha : ∀ now avg w, e ≠ .audioSample now avg w) :
    (step s e).calibrated = s.calibrated ∧
    (step s e).calSamples = s.calSamples := by
  cases e
  case audioSample now avg w => exact absurd rfl (ha now avg w)
  case faceCycle now obs w c =>
    exact ⟨faceCycle_calibrated (tickTime s now) now obs w c,
           faceCycle_calSamples (tickTime s now) now obs w c⟩
  all_goals simp only [step]
  all_goals (try (repeat' split))
  all_goals simp_all [tickTime, logCapture]

/-- Before calibration completes, fewer than 120 samples are stored, so the
completion test first passes at exactly the 120th sample. -/
theorem calBound_step (s : St) (e : Ev)
    (h : s.calibrated = false → s.calSamples.length < 120) :
    (step s e).calibrated = false → (step s e).calSamples.length < 120 := by
  by_cases haud : ∀ now avg w, e ≠ Ev.audioSample now avg w
  · have h2 := step_cal_other s e haud
    rw [h2.1, h2.2]
    exact h
  · push_neg at haud
    obtain ⟨now, avg, w, rfl⟩ := haud
    show (audioCheck (tickTime s now) now avg w).calibrated = false →
      (audioCheck (tickTime s now) now avg w).calSamples.length < 120
    unfold audioCheck
    (try dsimp only)
    repeat' split
    all_goals intro hc2
    all_goals simp_all [tickTime]
    all_goals omega

theorem calBound_run {u : St} (evs : List Ev)
    (h : u.calibrated = false → u.calSamples.length < 120) :
    (run u evs).calibrated = false → (run u evs).calSamples.length < 120 := by
  induction evs generalizing u with
  | nil => exact h
  | cons e rest ih => exact ih (calBound_step u e h)

/-- C8 (amended): the audio monitor.  (1) before the 120th sample a
calibration sample is only accumulated; (2) the 120th sample completes
calibration and sets the baseline to the 80th percentile of the window;
(3) on a reachable uncalibrated state fewer than 120 samples are stored,
so completion happens at exactly 120; (4) a loud sample (above
baseline + 12) that does not reach the trigger advances the voice-frame
counter and appends nothing; (5) a quiet sample decrements the counter
(floored at 0 by ℕ subtraction) and appends nothing; (6) a loud sample
reaching 5 voice frames with no recording in progress and the noise gate
open appends exactly one NOISE_DETECTED record carrying the measured level
and the baseline, resets the counter, stamps the flag and starts the
recording; (7) the same trigger with the gate closed appends nothing and
resets the counter; (8) the gate is open only strictly more than 12 000 ms
after the last flag. -/
theorem C8_audio_monitor (s : St) (now : Nat) (avg : ℚ) (w : Option String) :
    (s.calibrated = false → s.calSamples.length + 1 < 120 →
      (step s (.audioSample now avg w)).calSamples = s.calSamples ++ [avg] ∧
      (step s (.audioSample now avg w)).calibrated = false ∧
      (step s (.audioSample now avg w)).baseline = s.baseline ∧
      (step s (.audioSample now avg w)).violations = s.violations) ∧
    (s.calibrated = false → s.calSamples.length + 1 ≥ 120 →
      (step s (.audioSample now avg w)).calibrated = true ∧
      (step s (.audioSample now avg w)).baseline =
        percentile80 (s.calSamples ++ [avg]) ∧
      (step s (.audioSample now avg w)).violations = s.violations) ∧
    (Reachable s → s.calibrated = false → s.calSamples.length < 120) ∧
    (s.calibrated = true → s.baseline + 12 < avg →
      ¬(s.voiceFrames + 1 ≥ 5 ∧ s.saving = false) →
      (step s (.audioSample now avg w)).voiceFrames = s.voiceFrames + 1 ∧
      (step s (.audioSample now avg w)).violations = s.violations) ∧
    (s.calibrated = true → ¬(s.baseline + 12 < avg) →
      (step s (.audioSample now avg w)).voiceFrames = s.voiceFrames - 1 ∧
      (step s (.audioSample now avg w)).violations = s.violations) ∧
    (s.calibrated = true → s.baseline + 12 < avg → s.voiceFrames + 1 ≥ 5 →
      s.saving = false → noiseGate s.lastNoiseFlag now = true →
      (step s (.audioSample now avg w)).violations = s.violations ++
        [{ id := s.nextId, type := .NOISE_DETECTED,
           label := (VIOLATION_CONFIG .NOISE_DETECTED).1,
           severity := (VIOLATION_CONFIG .NOISE_DETECTED).2,
           timestamp := now, webcamShot := w, screenShot := none,
           audioUrl := none, awayMs := none,
           detail := some (.levelBaseline avg s.baseline) }] ∧
      (step s (.audioSample now avg w)).voiceFrames = 0 ∧
      (step s (.audioSample now avg w)).lastNoiseFlag = some now ∧
      (step s (.audioSample now avg w)).saving = true ∧
      (step s (.audioSample now avg w)).pendingNoiseId = some s.nextId) ∧
    (s.calibrated = true → s.baseline + 12 < avg → s.voiceFrames + 1 ≥ 5 →
      s.saving = false → noiseGate s.lastNoiseFlag now = false →
      (step s (.audioSample now avg w)).violations = s.violations ∧
      (step s (.audioSample now avg w)).voiceFrames = 0) ∧
    (∀ t : Nat, noiseGate (some t) now = decide (t + 12000 < now)) := by
  refine ⟨?_, ?_, ?_, ?_, ?_, ?_, ?_, fun t => rfl⟩
  · intro hcal hlt
    have hc : (tickTime s now).calibrated = false := hcal
    have hlen : ¬(((tickTime s now).calSamples ++ [avg]).length ≥ 120) := by
      simp [tickTime]
      omega
    have hstate : step s (.audioSample now avg w) =
        { tickTime s now with
            calSamples := (tickTime s now).calSamples ++ [avg] } := by
      show audioCheck (tickTime s now) now avg w = _
      unfold audioCheck
      rw [if_pos hc]
      (try dsimp only)
      rw [if_neg hlen]
    refine ⟨by rw [hstate]; (try rfl), ?_, by rw [hstate]; (try rfl), by rw [hstate]; (try rfl)⟩
    rw [hstate]
    exact hcal
  · intro hcal hge
    have hc : (tickTime s now).calibrated = false := hcal
    have hlen : ((tickTime s now).calSamples ++ [avg]).length ≥ 120 := by
      simp [tickTime]
      omega
    have hstate : step s (.audioSample now avg w) =
        { tickTime s now with
            calSamples := (tickTime s now).calSamples ++ [avg],
            baseline := percentile80 ((tickTime s now).calSamples ++ [avg]),
            calibrated := true } := by
      show audioCheck (tickTime s now) now avg w = _
      unfold audioCheck
      rw [if_pos hc]
      (try dsimp only)
      rw [if_pos hlen]
    exact ⟨by rw [hstate]; (try rfl), by rw [hstate]; (try rfl), by rw [hstate]; (try rfl)⟩
  · intro hreach hcal
    obtain ⟨d, t0, evs, _, _, _, rfl⟩ := hreach
    exact calBound_run evs (fun _ => by simp [init]) hcal
  · intro hcal hl hnot
    have hc' : ¬((tickTime s now).calibrated = false) := by simp [tickTime, hcal]
    have hl' : (tickTime s now).baseline + 12 < avg := hl
    have hn' : ¬((tickTime s now).voiceFrames + 1 ≥ 5 ∧
        (tickTime s now).saving = false) := hnot
    have hstate : step s (.audioSample now avg w) =
        { tickTime s now with
            voiceFrames := (tickTime s now).voiceFrames + 1 } := by
      show audioCheck (tickTime s now) now avg w = _
      unfold audioCheck
      rw [if_neg hc']
      (try dsimp only)
      rw [if_pos hl']
      (try dsimp only)
      rw [if_neg hn']
    exact ⟨by rw [hstate]; (try rfl), by rw [hstate]; (try rfl)⟩
  · intro hcal hq
    have hc' : ¬((tickTime s now).calibrated = false) := by simp [tickTime, hcal]
    have hq' : ¬((tickTime s now).baseline + 12 < avg) := hq
    have hstate : step s (.audioSample now avg w) =
        { tickTime s now with
            voiceFrames := (tickTime s now).voiceFrames - 1 } := by
      show audioCheck (tickTime s now) now avg w = _
      unfold audioCheck
      rw [if_neg hc']
      (try dsimp only)
      rw [if_neg hq']
    exact ⟨by rw [hstate]; (try rfl), by rw [hstate]; (try rfl)⟩
  · intro hcal hl h5 hsv hgt
    have hc' : ¬((tickTime s now).calibrated = false) := by simp [tickTime, hcal]
    have hl' : (tickTime s now).baseline + 12 < avg := hl
    have h5' : (tickTime s now).voiceFrames + 1 ≥ 5 := h5
    have hsv' : (tickTime s now).saving = false := hsv
    have hg' : noiseGate (tickTime s now).lastNoiseFlag now = true := hgt
    have hstate : step s (.audioSample now avg w) =
        { tickTime s now with
            voiceFrames := 0, lastNoiseFlag := some now, saving := true,
            pendingNoiseId := some (tickTime s now).nextId,
            nextId := (tickTime s now).nextId + 2,
            violations := (tickTime s now).violations ++
              [{ id := (tickTime s now).nextId, type := .NOISE_DETECTED,
                 label := (VIOLATION_CONFIG .NOISE_DETECTED).1,
                 severity := (VIOLATION_CONFIG .NOISE_DETECTED).2,
                 timestamp := now, webcamShot := w, screenShot := none,
                 audioUrl := none, awayMs := none,
                 detail := some (.levelBaseline avg (tickTime s now).baseline) }],
            captureLogs := (tickTime s now).captureLogs ++
              (match w with
               | some u => [{ id := (tickTime s now).nextId + 1, timestamp := now,
                              kind := .webcam, dataUrl := u,
                              trigger := .violation }]
               | none => []) } := by
      show audioCheck (tickTime s now) now avg w = _
      unfold audioCheck
      rw [if_neg hc']
      (try dsimp only)
      rw [if_pos hl']
      (try dsimp only)
      rw [if_pos ⟨h5', hsv'⟩]
      (try dsimp only)
      rw [if_pos hg']
    exact ⟨by rw [hstate]; (try rfl), by rw [hstate]; (try rfl), by rw [hstate]; (try rfl), by rw [hstate]; (try rfl),
           by rw [hstate]; (try rfl)⟩
  · intro hcal hl h5 hsv hgf
    have hc' : ¬((tickTime s now).calibrated = false) := by simp [tickTime, hcal]
    have hl' : (tickTime s now).baseline + 12 < avg := hl
    have h5' : (tickTime s now).voiceFrames + 1 ≥ 5 := h5
    have hsv' : (tickTime s now).saving = false := hsv
    have hg' : noiseGate (tickTime s now).lastNoiseFlag now = false := hgf
    have hstate : step s (.audioSample now avg w) =
        { tickTime s now with voiceFrames := 0 } := by
      show audioCheck (tickTime s now) now avg w = _
      unfold audioCheck
      rw [if_neg hc']
      (try dsimp only)
      rw [if_pos hl']
      (try dsimp only)
      rw [if_pos ⟨h5', hsv'⟩]
      (try dsimp only)
      rw [if_neg (by simp [hg'])]
    exact ⟨by rw [hstate]; (try rfl), by rw [hstate]; (try rfl)⟩

/-- A calibration run (120 samples at level 20, so baseline 20), one noise
burst of five loud samples fired at 20005, and the recorder stopping with an
undersized clip at 25000. -/
def c8lead : List Ev :=
  List.replicate 120 (.audioSample 20000 20 none) ++
  [.audioSample 20001 40 none, .audioSample 20002 40 none,
   .audioSample 20003 40 none, .audioSample 20004 40 none,
   .audioSample 20005 40 none,
   .recorderDone 25000 false false "clip" 40 none none]

/-- A second qualifying five-sample burst whose trigger lands exactly
12000 ms after the first noise flag. -/
def c8burst : List Ev :=
  [.audioSample 32001 40 none, .audioSample 32002 40 none,
   .audioSample 32003 40 none, .audioSample 32004 40 none,
   .audioSample 32005 40 none]

set_option maxRecDepth 100000 in
/-- C8 counterexample: the claim promises a NOISE_DETECTED record whenever
the counter reaches 5 with no recording in progress and at least 12 000 ms
have elapsed since the last noise flag.  On this admissible trace the second
qualifying burst triggers exactly 12 000 ms after the flag (32005 − 20005),
with the counter at 5 and no recording in progress, yet no second record is
appended: the source gate demands strictly more than 12 000 ms. -/
theorem C8_counterexample :
    validFrom (init 3600 20000) (c8lead ++ c8burst) = true ∧
    (run (init 3600 20000) c8lead).lastNoiseFlag = some 20005 ∧
    (run (init 3600 20000) c8lead).saving = false ∧
    (run (init 3600 20000) c8lead).voiceFrames = 0 ∧
    countType (run (init 3600 20000) c8lead).violations .NOISE_DETECTED = 1 ∧
    32005 - 20005 = 12000 ∧
    countType (run (init 3600 20000) (c8lead ++ c8burst)).violations
      .NOISE_DETECTED = 1 := by
  decide

theorem C8_audio_monitor_witness :
    (({ init 3600 20000 with
        calibrated := true, baseline := 20, voiceFrames := 4 } : St).calibrated = true ∧
     ({ init 3600 20000 with
        calibrated := true, baseline := 20, voiceFrames := 4 } : St).baseline + 12 < (40 : ℚ) ∧
     ({ init 3600 20000 with
        calibrated := true, baseline := 20, voiceFrames := 4 } : St).voiceFrames + 1 ≥ 5 ∧
     ({ init 3600 20000 with
        calibrated := true, baseline := 20, voiceFrames := 4 } : St).saving = false ∧
     noiseGate ({ init 3600 20000 with
        calibrated := true, baseline := 20, voiceFrames := 4 } : St).lastNoiseFlag 20005 = true) ∧
    (step ({ init 3600 20000 with
        calibrated := true, baseline := 20, voiceFrames := 4 } : St) (.audioSample 20005 40 none)).violations =
      [{ id := 0, type := .NOISE_DETECTED,
         label := (VIOLATION_CONFIG .NOISE_DETECTED).1,
         severity := (VIOLATION_CONFIG .NOISE_DETECTED).2,
         timestamp := 20005, webcamShot := none, screenShot := none,
         audioUrl := none, awayMs := none,
         detail := some (.levelBaseline 40 20) }] ∧
    (step ({ init 3600 20000 with
        calibrated := true, baseline := 20, voiceFrames := 4 } : St) (.audioSample 20005 40 none)).saving = true ∧
    (step ({ init 3600 20000 with
        calibrated := true, baseline := 20, voiceFrames := 4 } : St) (.audioSample 20005 40 none)).lastNoiseFlag =
      some 20005 := by
  have h := (C8_audio_monitor ({ init 3600 20000 with
    calibrated := true, baseline := 20, voiceFrames := 4 } : St) 20005 40
    none).2.2.2.2.2.1 rfl (by decide) (by decide) rfl rfl
  exact ⟨⟨rfl, by decide, by decide, rfl, rfl⟩, h.1, h.2.2.2.1, h.2.2.1⟩
